import Mathlib

/-!
Verification development for the pylon message-pipeline library.

The Lean definitions below are a shallow embedding of the Python source:

* `PyVal` models the dynamic values held in message attribute slots
  (`None`, `str`, `bool`, `int`).
* `Dict α` (`List (String × α)` with `dictSet`/`dictPop?`/... operations)
  models Python's insertion-ordered `dict` with in-place update and `pop`.
* `DataAsset` / `IngestionStep` mirror `pylon/models/data.py` and
  `pylon/models/ingestion.py`; their `toJSON`/`fromJSON` serialization is
  modelled from the spec (the methods are referenced throughout the source
  but their definitions are not in the source tree).
* `BaseMessage` mirrors `pylon/models/messages.py`, `encode_message` /
  `decode_message` mirror `pylon/io/_common.py`, `encodeMessage` mirrors
  `pylon/aws/_common.py`, `MessageStore.checkInPayload` /
  `MessageStore.checkOutPayload` mirror `pylon/aws/s3.py`, and the
  component runtime (`_storeMessageBody`, `_retrieveMessageBody`,
  `runOnce`, ...) mirrors `pylon/component.py`.
* Fallible Python code (raises) is modelled with `Option` / `Except PyErr`;
  stateful code threads explicit state (`S3State`, `World`).
-/

namespace Pylon

/-- A dynamic Python value as stored in message fields and attribute maps. -/
inductive PyVal where
  | none
  | str (s : String)
  | bool (b : Bool)
  | int (n : Int)
deriving DecidableEq, Repr

/-- Python `str(v)` for the values of `PyVal`. -/
def PyVal.pyStr : PyVal → String
  | .none => "None"
  | .str s => s
  | .bool true => "True"
  | .bool false => "False"
  | .int n => toString n

/-- Python `repr(v)`, as used when printing a value inside a dict. -/
def PyVal.pyRepr : PyVal → String
  | .str s => "'" ++ s ++ "'"
  | v => v.pyStr

/-- Whether the value is a Python `str`. -/
def PyVal.isStr : PyVal → Bool
  | .str _ => true
  | _ => false

/-- A Python `dict` with string keys: an insertion-ordered association list. -/
abbrev Dict (α : Type) := List (String × α)

/-- Python `k in d`. -/
def dictHasKey (d : Dict α) (k : String) : Bool :=
  d.any (fun kv => kv.1 == k)

/-- Python `d.get(k)` (first occurrence; dicts built by `dictSet` have unique keys). -/
def dictGet? (d : Dict α) (k : String) : Option α :=
  (d.find? (fun kv => kv.1 == k)).map (·.2)

/-- Python `d[k] = v`: replace in place if the key exists, else append. -/
def dictSet (d : Dict α) (k : String) (v : α) : Dict α :=
  if dictHasKey d k then d.map (fun kv => if kv.1 == k then (k, v) else kv)
  else d ++ [(k, v)]

/-- Python `d.update(e)`: apply `dictSet` for each pair of `e` in order. -/
def dictUpdate (d e : Dict α) : Dict α :=
  e.foldl (fun acc kv => dictSet acc kv.1 kv.2) d

/-- Remove the (first) entry with the given key. -/
def dictErase (d : Dict α) (k : String) : Dict α :=
  d.eraseP (fun kv => kv.1 == k)

/-- Python `d.pop(k)`: the value and the dict without the key; `none` models `KeyError`. -/
def dictPop? (d : Dict α) (k : String) : Option (α × Dict α) :=
  (dictGet? d k).map (fun v => (v, dictErase d k))

/-- Python `d.pop(k, default)`. -/
def dictPopD (d : Dict α) (k : String) (dflt : α) : α × Dict α :=
  match dictPop? d k with
  | some p => p
  | none => (dflt, d)

/-- The keys of the dict, in order. -/
def dictKeys (d : Dict α) : List String := d.map (·.1)

/-- Python `str(d)` of a string-keyed dict, used by `getApproxSize`. -/
def dictPyStr (d : Dict PyVal) : String :=
  "\x7b" ++ String.intercalate ", " (d.map (fun kv => "'" ++ kv.1 ++ "': " ++ kv.2.pyRepr)) ++ "\x7d"

/-!
A small invertible serialization codec over `List Char`, used to give an
executable model of the `toJSON`/`fromJSON` body serialization.  Those
methods are called throughout the source (`pylon/io/_common.py`,
`pylon/aws/s3.py`, ...) but are not defined in the source tree, so they are
modelled from the spec: serialization turns a structured body into a string
from which the original value is reconstructed on deserialization.
Lengths are unary-coded so that decoding is provably the inverse of
encoding.
-/

/-- Unary encoding of a natural number. -/
def encNat (n : Nat) : List Char := List.replicate n '1' ++ ['0']

/-- Decode a unary-coded natural number, returning the remainder. -/
def decNat : List Char → Option (Nat × List Char)
  | [] => Option.none
  | c :: rest =>
    if c = '1' then (decNat rest).map (fun p => (p.1 + 1, p.2))
    else if c = '0' then some (0, rest)
    else Option.none

/-- Length-prefixed encoding of a string. -/
def encStr (s : String) : List Char := encNat s.data.length ++ s.data

/-- Decode a length-prefixed string. -/
def decStr (l : List Char) : Option (String × List Char) :=
  (decNat l).bind (fun p =>
    if p.1 ≤ p.2.length then some (String.mk (p.2.take p.1), p.2.drop p.1)
    else Option.none)

/-- Sign-and-magnitude encoding of an integer. -/
def encInt : Int → List Char
  | .ofNat n => '+' :: encNat n
  | .negSucc n => '-' :: encNat n

/-- Decode an integer. -/
def decInt : List Char → Option (Int × List Char)
  | '+' :: rest => (decNat rest).map (fun p => (Int.ofNat p.1, p.2))
  | '-' :: rest => (decNat rest).map (fun p => (Int.negSucc p.1, p.2))
  | _ => Option.none

/-- Tagged encoding of a dynamic value. -/
def encPyVal : PyVal → List Char
  | .none => ['N']
  | .str s => 'S' :: encStr s
  | .bool b => ['B', if b then '1' else '0']
  | .int i => 'I' :: encInt i

/-- Decode a dynamic value. -/
def decPyVal : List Char → Option (PyVal × List Char)
  | 'N' :: rest => some (.none, rest)
  | 'S' :: rest => (decStr rest).map (fun p => (.str p.1, p.2))
  | 'B' :: c :: rest =>
    if c = '1' then some (.bool true, rest)
    else if c = '0' then some (.bool false, rest)
    else Option.none
  | 'I' :: rest => (decInt rest).map (fun p => (.int p.1, p.2))
  | _ => Option.none

/-- Encode a list as a unary count followed by the encoded elements. -/
def encListWith (enc : α → List Char) (xs : List α) : List Char :=
  encNat xs.length ++ (xs.map enc).flatten

/-- Decode exactly `n` elements. -/
def decListN (dec : List Char → Option (α × List Char)) :
    Nat → List Char → Option (List α × List Char)
  | 0, l => some ([], l)
  | n + 1, l =>
    (dec l).bind (fun p => (decListN dec n p.2).map (fun q => (p.1 :: q.1, q.2)))

/-- Decode a counted list. -/
def decListWith (dec : List Char → Option (α × List Char)) (l : List Char) :
    Option (List α × List Char) :=
  (decNat l).bind (fun p => decListN dec p.1 p.2)

/-- Encode a key/value attribute pair. -/
def encAttr (kv : String × PyVal) : List Char := encStr kv.1 ++ encPyVal kv.2

/-- Decode a key/value attribute pair. -/
def decAttr (l : List Char) : Option ((String × PyVal) × List Char) :=
  (decStr l).bind (fun p => (decPyVal p.2).map (fun q => ((p.1, q.1), q.2)))

/-!  Data model: `pylon/models/data.py` and `pylon/models/ingestion.py`. -/

/-- `DataAsset` from `pylon/models/data.py`: structured tabular data.
`data` is a list of dictionaries mapping the data asset fields to their
values; `ingestionId` is the id of the ingestion step that produced this
record (dynamically typed, `None` until populated). -/
structure DataAsset where
  dataAssetName : String := ""
  dataAssetCountry : String := ""
  dataAssetVersion : String := ""
  dataAssetPartitionKeys : List String := []
  dataAssetUniqueKeys : List String := []
  data : List (Dict PyVal) := []
  ingestionId : PyVal := .none
deriving DecidableEq, Repr

/-- `IngestionStep` from `pylon/models/ingestion.py`: the per-cycle
lineage/metadata record.  Metadata values are dynamically typed. -/
structure IngestionStep where
  ingestionId : String := ""
  parentIngestionId : PyVal := .none
  artifactName : String := ""
  artifactVersion : String := ""
  dimUTCTimestamp : Int := 0
  dimUTCDateId : Int := 0
  dimUTCHour : Int := 0
  metadata : Dict PyVal := []
deriving DecidableEq, Repr

/-- `IngestionStep.updateMetadata` from `pylon/models/ingestion.py`. -/
def IngestionStep.updateMetadata (st : IngestionStep) (newMetadata : Dict PyVal) :
    IngestionStep :=
  { st with metadata := dictUpdate st.metadata newMetadata }

/-- Field-by-field encoding of a `DataAsset`. -/
def encDataAsset (d : DataAsset) : List Char :=
  encStr d.dataAssetName ++ encStr d.dataAssetCountry ++ encStr d.dataAssetVersion ++
  encListWith encStr d.dataAssetPartitionKeys ++ encListWith encStr d.dataAssetUniqueKeys ++
  encListWith (encListWith encAttr) d.data ++ encPyVal d.ingestionId

/-- Field-by-field decoding of a `DataAsset`. -/
def decDataAsset (l : List Char) : Option (DataAsset × List Char) :=
  (decStr l).bind (fun p1 =>
  (decStr p1.2).bind (fun p2 =>
  (decStr p2.2).bind (fun p3 =>
  (decListWith decStr p3.2).bind (fun p4 =>
  (decListWith decStr p4.2).bind (fun p5 =>
  (decListWith (decListWith decAttr) p5.2).bind (fun p6 =>
  (decPyVal p6.2).map (fun p7 =>
  (⟨p1.1, p2.1, p3.1, p4.1, p5.1, p6.1, p7.1⟩, p7.2))))))))

/-- Field-by-field encoding of an `IngestionStep`. -/
def encIngestionStep (st : IngestionStep) : List Char :=
  encStr st.ingestionId ++ encPyVal st.parentIngestionId ++ encStr st.artifactName ++
  encStr st.artifactVersion ++ encInt st.dimUTCTimestamp ++ encInt st.dimUTCDateId ++
  encInt st.dimUTCHour ++ encListWith encAttr st.metadata

/-- Field-by-field decoding of an `IngestionStep`. -/
def decIngestionStep (l : List Char) : Option (IngestionStep × List Char) :=
  (decStr l).bind (fun p1 =>
  (decPyVal p1.2).bind (fun p2 =>
  (decStr p2.2).bind (fun p3 =>
  (decStr p3.2).bind (fun p4 =>
  (decInt p4.2).bind (fun p5 =>
  (decInt p5.2).bind (fun p6 =>
  (decInt p6.2).bind (fun p7 =>
  (decListWith decAttr p7.2).map (fun p8 =>
  (⟨p1.1, p2.1, p3.1, p4.1, p5.1, p6.1, p7.1, p8.1⟩, p8.2)))))))))

/-- Modelled from the spec: `DataAsset.toJSON` is called by the codec and the
payload store but is not defined in the source tree.  Per the spec, a
structured body is replaced by its serialized string form; the JSON object
text opens with a brace and carries the class name, modelled here by the
leading tag characters. -/
def DataAsset.toJSON (d : DataAsset) : String :=
  String.mk ('\x7b' :: 'D' :: encDataAsset d)

/-- Modelled from the spec: `DataAsset.fromJSON` reconstructs the value that
`DataAsset.toJSON` serialized and fails (`None`) on any other input, as
deserialization of a non-matching JSON document raises. -/
def DataAsset.fromJSON (s : String) : Option DataAsset :=
  match s.data with
  | '\x7b' :: 'D' :: l =>
    match decDataAsset l with
    | some (d, []) => some d
    | _ => Option.none
  | _ => Option.none

/-- Modelled from the spec: `IngestionStep.toJSON` (absent from the source
tree), the serialized string form of an ingestion step. -/
def IngestionStep.toJSON (st : IngestionStep) : String :=
  String.mk ('\x7b' :: 'I' :: encIngestionStep st)

/-- Modelled from the spec: `IngestionStep.fromJSON` (absent from the source
tree), the inverse of `IngestionStep.toJSON`. -/
def IngestionStep.fromJSON (s : String) : Option IngestionStep :=
  match s.data with
  | '\x7b' :: 'I' :: l =>
    match decIngestionStep l with
    | some (st, []) => some st
    | _ => Option.none
  | _ => Option.none

/-!  Messages: `pylon/models/messages.py`. -/

/-!  The `ObjectType` tag constants from `pylon/models/messages.py`. -/
namespace ObjectType

def DATA_ASSET : String := "dataAsset"
def INGESTION_STEP : String := "ingestionStep"
def URL_RESOURCE : String := "urlResource"
def UPDATE_NOTIFICATION : String := "updateNotification"
def RAW_CONTENT : String := "rawContent"
def NULL : String := "null"
def LAMBDA_EVENT : String := "lambdaEvent"

end ObjectType

/-!  The `MessageAttribute` name constants from `pylon/models/messages.py`. -/
namespace MessageAttribute

def OBJECT_TYPE : String := "objectType"
def INGESTION_ID : String := "ingestionId"
def PAYLOAD_MIME_TYPE : String := "payloadMimeType"
def PAYLOAD_STORE_KEY : String := "payloadStoreKey"
def ARTIFACT_NAME : String := "artifactName"
def ARTIFACT_VERSION : String := "artifactVersion"
def CUSTOM_ATTRIBUTES : String := "customAttributes"

end MessageAttribute

/-- The dynamically typed `body` slot of a message: `None`, plain text, or a
structured variant that knows how to (de)serialize itself. -/
inductive Body where
  | none
  | str (s : String)
  | dataAsset (d : DataAsset)
  | ingestionStep (st : IngestionStep)
deriving DecidableEq, Repr

/-- The Python class of a message object (`BaseMessage` and its subclasses in
`pylon/models/messages.py`); it determines which `serializeBody` /
`deserializeBody` overrides apply.  It is not one of the `__slots__`, so it
does not take part in `__eq__`. -/
inductive MsgClass where
  | base
  | null
  | ingestion
  | urlResource
  | rawContent
  | updateNotification
  | dataAsset
  | lambdaEvent
deriving DecidableEq, Repr

/-- `BaseMessage` from `pylon/models/messages.py`.  The `__slots__` are
`body` plus the values of `MessageAttribute` (in the alphabetical order of
`dir`): `artifactName`, `artifactVersion`, `customAttributes`,
`ingestionId`, `objectType`, `payloadMimeType`, `payloadStoreKey`.  All
slots other than `body` and `customAttributes` are dynamically typed. -/
structure BaseMessage where
  cls : MsgClass := .base
  body : Body := .none
  payloadMimeType : PyVal := .none
  objectType : PyVal := .none
  customAttributes : Dict PyVal := []
  payloadStoreKey : PyVal := .none
  ingestionId : PyVal := .none
  artifactName : PyVal := .none
  artifactVersion : PyVal := .none
deriving DecidableEq, Repr

/-- `BaseMessage.isCheckedIn`: `payloadStoreKey is not None`. -/
def BaseMessage.isCheckedIn (m : BaseMessage) : Bool :=
  m.payloadStoreKey != .none

/-- `BaseMessage.getBody`. -/
def BaseMessage.getBody (m : BaseMessage) : Body := m.body

/-- Python `str(body)` for `getApproxSize`; structured bodies are rendered
through their (spec-modelled) serialized form. -/
def Body.pyStr : Body → String
  | .none => "None"
  | .str s => s
  | .dataAsset d => d.toJSON
  | .ingestionStep st => st.toJSON

/-- `BaseMessage.getApproxSize`: the sum over the `__slots__` of
`len(str(key)) + len(str(value))`. -/
def BaseMessage.getApproxSize (m : BaseMessage) : Nat :=
  ("body".length + m.body.pyStr.length) +
  ("artifactName".length + m.artifactName.pyStr.length) +
  ("artifactVersion".length + m.artifactVersion.pyStr.length) +
  ("customAttributes".length + (dictPyStr m.customAttributes).length) +
  ("ingestionId".length + m.ingestionId.pyStr.length) +
  ("objectType".length + m.objectType.pyStr.length) +
  ("payloadMimeType".length + m.payloadMimeType.pyStr.length) +
  ("payloadStoreKey".length + m.payloadStoreKey.pyStr.length)

/-- `BaseMessage.serializeBody`: a no-op on the base class; the
`IngestionMessage` and `DataAssetMessage` overrides replace the body with
`body.toJSON()`.  `none` models the `AttributeError` raised when the body
has no `toJSON`. -/
def BaseMessage.serializeBody (m : BaseMessage) : Option BaseMessage :=
  match m.cls with
  | .ingestion | .dataAsset =>
    match m.body with
    | .dataAsset d => some { m with body := .str d.toJSON }
    | .ingestionStep st => some { m with body := .str st.toJSON }
    | _ => Option.none
  | _ => some m

/-- `BaseMessage.deserializeBody`: a no-op on the base class; the
`IngestionMessage` override parses an `IngestionStep` from the body string
and the `DataAssetMessage` override parses a `DataAsset`.  `none` models
the exception raised when parsing fails or the body is not a string. -/
def BaseMessage.deserializeBody (m : BaseMessage) : Option BaseMessage :=
  match m.cls with
  | .ingestion =>
    match m.body with
    | .str s => (IngestionStep.fromJSON s).map (fun st => { m with body := .ingestionStep st })
    | _ => Option.none
  | .dataAsset =>
    match m.body with
    | .str s => (DataAsset.fromJSON s).map (fun d => { m with body := .dataAsset d })
    | _ => Option.none
  | _ => some m

/-- Python dict equality (`==` ignores insertion order): the same keys map
to the same values on both sides. -/
def dictPyEquiv (a b : Dict PyVal) : Bool :=
  (dictKeys a ++ dictKeys b).all (fun k => dictGet? a k == dictGet? b k)

/-- `BaseMessage.__eq__`: `list(self.items()) == list(other.items())`, the
pairwise comparison of all `__slots__` values (the class is not compared;
the `customAttributes` slot compares as a Python dict). -/
def BaseMessage.pyEq (m1 m2 : BaseMessage) : Bool :=
  m1.body == m2.body &&
  m1.artifactName == m2.artifactName &&
  m1.artifactVersion == m2.artifactVersion &&
  dictPyEquiv m1.customAttributes m2.customAttributes &&
  m1.ingestionId == m2.ingestionId &&
  m1.objectType == m2.objectType &&
  m1.payloadMimeType == m2.payloadMimeType &&
  m1.payloadStoreKey == m2.payloadStoreKey

/-- `NullMessage()` from `pylon/models/messages.py`. -/
def nullMessage : BaseMessage :=
  { cls := .null, body := .str "", payloadMimeType := .str "text",
    objectType := .str ObjectType.NULL }

/-- `RawContentMessage(payloadMimeType)` from `pylon/models/messages.py`. -/
def rawContentMessage (payloadMimeType : String) : BaseMessage :=
  { cls := .rawContent, body := .str "", payloadMimeType := .str payloadMimeType,
    objectType := .str ObjectType.RAW_CONTENT }

/-- `DataAssetMessage(dataAsset)` from `pylon/models/messages.py`. -/
def dataAssetMessage (d : DataAsset) : BaseMessage :=
  { cls := .dataAsset, body := .dataAsset d, payloadMimeType := .str "text/json",
    objectType := .str ObjectType.DATA_ASSET }

/-- `IngestionMessage(body)` from `pylon/models/messages.py`. -/
def ingestionMessage (st : IngestionStep) : BaseMessage :=
  { cls := .ingestion, body := .ingestionStep st, payloadMimeType := .str "text/json",
    objectType := .str ObjectType.INGESTION_STEP }

/-!  The envelope codec: `pylon/io/_common.py`. -/

/-- The non-empty placeholder substituted for an empty body in
`encode_message`. -/
def fillerBody : String := "filling message body with a string so it is not empty"

/-- The body-processing steps of `encode_message`: serialize a
`JsonSerializable` body, then substitute the placeholder when the result is
falsy (`None` or the empty string). -/
def encodeBody (b : Body) : String :=
  let s : String :=
    match b with
    | .none => ""
    | .str s => s
    | .dataAsset d => d.toJSON
    | .ingestionStep st => st.toJSON
  if s.data.isEmpty then fillerBody else s

/-- The `(body, attributes)` pair returned by `encode_message`. -/
structure Encoded where
  body : String
  attributes : Dict PyVal
deriving DecidableEq, Repr

/-- `encode_message` from `pylon/io/_common.py`: collect the five fixed
attributes, merge in the custom attributes, serialize/fill the body, re-set
the ingestion id for ingestion steps, and add the store key when present. -/
def encode_message (message : BaseMessage) : Encoded :=
  let attributes : Dict PyVal :=
    [(MessageAttribute.PAYLOAD_MIME_TYPE, message.payloadMimeType),
     (MessageAttribute.OBJECT_TYPE, message.objectType),
     (MessageAttribute.INGESTION_ID, message.ingestionId),
     (MessageAttribute.ARTIFACT_NAME, message.artifactName),
     (MessageAttribute.ARTIFACT_VERSION, message.artifactVersion)]
  let attributes := dictUpdate attributes message.customAttributes
  let body := encodeBody message.getBody
  let attributes :=
    if message.objectType == .str ObjectType.INGESTION_STEP then
      dictSet attributes MessageAttribute.INGESTION_ID message.ingestionId
    else attributes
  let attributes :=
    if message.payloadStoreKey != .none then
      dictSet attributes MessageAttribute.PAYLOAD_STORE_KEY message.payloadStoreKey
    else attributes
  { body := body, attributes := attributes }

/-- `decode_message` from `pylon/io/_common.py`.  The five fixed attributes
are popped from the caller's dict (a missing key raises, modelled `none`),
then the optional store key; a not-checked-in structured body is parsed
according to `objectType`; everything remaining becomes the custom
attributes.  The returned pair is the message together with the caller's
attribute dict as it is left after the call (the pops mutate it in
place). -/
def decode_message (body : String) (attributes : Dict PyVal) :
    Option (BaseMessage × Dict PyVal) :=
  (dictPop? attributes MessageAttribute.PAYLOAD_MIME_TYPE).bind (fun p1 =>
  (dictPop? p1.2 MessageAttribute.OBJECT_TYPE).bind (fun p2 =>
  (dictPop? p2.2 MessageAttribute.INGESTION_ID).bind (fun p3 =>
  (dictPop? p3.2 MessageAttribute.ARTIFACT_NAME).bind (fun p4 =>
  (dictPop? p4.2 MessageAttribute.ARTIFACT_VERSION).bind (fun p5 =>
  let psk := dictPopD p5.2 MessageAttribute.PAYLOAD_STORE_KEY .none
  let message : BaseMessage :=
    { cls := .base, body := .str body, payloadMimeType := p1.1, objectType := p2.1,
      ingestionId := p3.1, artifactName := p4.1, artifactVersion := p5.1,
      payloadStoreKey := psk.1, customAttributes := [] }
  (if message.isCheckedIn then some message
   else if message.objectType == .str ObjectType.DATA_ASSET then
     (DataAsset.fromJSON body).map (fun d => { message with body := .dataAsset d })
   else if message.objectType == .str ObjectType.INGESTION_STEP then
     (IngestionStep.fromJSON body).map (fun st => { message with body := .ingestionStep st })
   else some message).map (fun m =>
    ({ m with customAttributes := psk.2 }, psk.2)))))))

/-!  The AWS wire codec: `pylon/aws/_common.py`. -/

/-- An SQS/SNS message-attribute value:
`\x7b'StringValue': str(v), 'DataType': 'String'\x7d`. -/
structure SqsAttrVal where
  stringValue : PyVal
  dataType : String
deriving DecidableEq, Repr

/-- The `(body, attributes)` pair returned by `encodeMessage`. -/
structure EncodedAws where
  body : String
  attributes : List (String × SqsAttrVal)
deriving DecidableEq, Repr

/-- `encodeMessage` from `pylon/aws/_common.py`: the same attribute assembly
as `encode_message`, followed by the wire coercion that wraps every
attribute as `\x7b'StringValue': str(v), 'DataType': 'String'\x7d`. -/
def encodeMessage (message : BaseMessage) : EncodedAws :=
  let attributes : Dict PyVal :=
    [(MessageAttribute.PAYLOAD_MIME_TYPE, message.payloadMimeType),
     (MessageAttribute.OBJECT_TYPE, message.objectType),
     (MessageAttribute.INGESTION_ID, message.ingestionId),
     (MessageAttribute.ARTIFACT_NAME, message.artifactName),
     (MessageAttribute.ARTIFACT_VERSION, message.artifactVersion)]
  let attributes := dictUpdate attributes message.customAttributes
  let body := encodeBody message.getBody
  let attributes :=
    if message.objectType == .str ObjectType.INGESTION_STEP then
      dictSet attributes MessageAttribute.INGESTION_ID message.ingestionId
    else attributes
  let attributes :=
    if message.payloadStoreKey != .none then
      dictSet attributes MessageAttribute.PAYLOAD_STORE_KEY message.payloadStoreKey
    else attributes
  { body := body,
    attributes := attributes.map (fun kv => (kv.1, ⟨.str kv.2.pyStr, "String"⟩)) }

/-!  The payload store: `pylon/aws/s3.py`. -/

/-- The state of the S3 collaborator: the stored blobs keyed by their full
`s3://...` path, plus a counter from which fresh identifiers are drawn
(modelling `uuid.uuid4()`). -/
structure S3State where
  blobs : Dict String := []
  nextId : Nat := 0
deriving DecidableEq, Repr

/-- Python `s.startswith(pre)`, at the character-list level. -/
def pyStartsWith (s pre : String) : Bool :=
  pre.data.isPrefixOf s.data

/-- Python `s.rstrip('/')`, at the character-list level. -/
def rstripSlashes (p : String) : String :=
  String.mk ((p.data.reverse.dropWhile (· == '/')).reverse)

/-- `splitPath` succeeds on a path of the shape `s3://bucket/key`: it must
start with `s3://` and the remainder must split into a bucket and a key. -/
def validS3Path (p : String) : Bool :=
  pyStartsWith p "s3://" && (p.data.drop 5).contains '/'

/-- `MessageStore` from `pylon/aws/s3.py`; `destRoot` is the `self.prefix`
field, the destination URI with trailing slashes stripped. -/
structure MessageStore where
  destRoot : String
deriving DecidableEq, Repr

/-- `MessageStore.__init__`: strips trailing `/` from the destination. -/
def mkMessageStore (p : String) : MessageStore :=
  ⟨rstripSlashes p⟩

/-- `MessageStore._getPath`: the destination joined with a fresh unique
identifier (`uuid.uuid4()` modelled by the store-state counter). -/
def MessageStore.getPath (st : MessageStore) (σ : S3State) : String :=
  st.destRoot ++ "/" ++ toString σ.nextId

/-- `MessageStore.checkInPayload` from `pylon/aws/s3.py`: deep-copy the
message, `serializeBody`, generate a fresh key, `putObject` the body under
it, and return the copy with `payloadStoreKey` and `body` both set to the
key.  `none` models the exceptions raised when the body has no `toJSON`,
when the serialized body is not a string (`content.encode` fails in
`Bucket.put`), or when the key is not a valid S3 path. -/
def MessageStore.checkInPayload (st : MessageStore) (m : BaseMessage) (σ : S3State) :
    Option (BaseMessage × S3State) :=
  (m.serializeBody).bind (fun m =>
    let key := st.getPath σ
    match m.body with
    | .str content =>
      if validS3Path key then
        some ({ m with payloadStoreKey := .str key, body := .str key },
              { blobs := dictSet σ.blobs key content, nextId := σ.nextId + 1 })
      else Option.none
    | _ => Option.none)

/-- `MessageStore.checkOutPayload` from `pylon/aws/s3.py` (a static method):
deep-copy the message, `getObject` the bytes at `payloadStoreKey`, decode
them as UTF-8 text, `deserializeBody`, and clear `payloadStoreKey`.
`none` models the exceptions raised when the store key is not a string or
not a valid S3 path, when no blob exists under it, or when
`deserializeBody` fails. -/
def MessageStore.checkOutPayload (m : BaseMessage) (σ : S3State) : Option BaseMessage :=
  match m.payloadStoreKey with
  | .str key =>
    if validS3Path key then
      (dictGet? σ.blobs key).bind (fun content =>
        (({ m with body := .str content } : BaseMessage).deserializeBody).map (fun m =>
          { m with payloadStoreKey := .none }))
    else Option.none
  | _ => Option.none

/-!  The component runtime: `pylon/component.py` and `pylon/utils/__init__.py`. -/

/-- A Python exception, as far as the runtime distinguishes them. -/
inductive PyErr where
  | notImplementedError (s : String)
  | valueError (s : String)
  | attributeError
  | keyError
  | s3Error
  | jsonError
  | messageTooLarge (s : String)
  | userError (s : String)
deriving DecidableEq, Repr

/-- The configuration mapping consumed by the runtime (`getConfig` in
`pylon/config.py`); `none` models an absent key (`config.get` returns
`None`). -/
structure PylonConfig where
  storeDestination : Option String := Option.none
  storeMinMessageBytes : Option Int := Option.none
  imageName : Option String := Option.none
  version : Option String := Option.none
deriving DecidableEq, Repr

/-- `_getStoreFromConfig` from `pylon/component.py`: no store when
`PYLON_STORE_DESTINATION` is absent, an S3 `MessageStore` for an `s3://`
destination, and `NotImplementedError` otherwise. -/
def _getStoreFromConfig (config : PylonConfig) : Except PyErr (Option MessageStore) :=
  match config.storeDestination with
  | Option.none => .ok Option.none
  | some dest =>
    if pyStartsWith dest "s3://" then .ok (some (mkMessageStore dest))
    else .error (.notImplementedError ("Unsupported message store " ++ dest))

/-- `_storeMessageBody` from `pylon/component.py`: an already-checked-in
message is returned unchanged; otherwise the store and threshold are read
from the configuration and the message is checked in exactly when both are
present and `getApproxSize() >= PYLON_STORE_MIN_MESSAGE_BYTES`. -/
def _storeMessageBody (message : BaseMessage) (config : PylonConfig) (σ : S3State) :
    Except PyErr (BaseMessage × S3State) :=
  if message.isCheckedIn then .ok (message, σ)
  else
    (_getStoreFromConfig config).bind (fun store =>
      let min_body_size_bytes := config.storeMinMessageBytes
      match store, min_body_size_bytes with
      | some st, some n =>
        if n ≤ (message.getApproxSize : Int) then
          match st.checkInPayload message σ with
          | some r => .ok r
          | Option.none => .error .attributeError
        else .ok (message, σ)
      | _, _ => .ok (message, σ))

/-- `_retrieveMessageBody` from `pylon/component.py`: raises `ValueError`
immediately when the message is not checked in; otherwise checks the store
key scheme, checks the payload out of S3, and parses a structured body
according to `objectType` (this did not happen in `decode` because the real
body was not available there). -/
def _retrieveMessageBody (message : BaseMessage) (σ : S3State) : Except PyErr BaseMessage :=
  if !message.isCheckedIn then .error (.valueError "message is not checked in anywhere???")
  else
    match message.payloadStoreKey with
    | .str key =>
      if pyStartsWith key "s3://" then
        match MessageStore.checkOutPayload message σ with
        | Option.none => .error .s3Error
        | some m =>
          if m.objectType == .str ObjectType.DATA_ASSET then
            match m.body with
            | .str s =>
              match DataAsset.fromJSON s with
              | some d => .ok { m with body := .dataAsset d }
              | Option.none => .error .jsonError
            | _ => .error .jsonError
          else if m.objectType == .str ObjectType.INGESTION_STEP then
            match m.body with
            | .str s =>
              match IngestionStep.fromJSON s with
              | some st => .ok { m with body := .ingestionStep st }
              | Option.none => .error .jsonError
            | _ => .error .jsonError
          else .ok m
      else .error (.notImplementedError ("Unsupported message store for " ++ key))
    | _ => .error .attributeError

/-- `_populateMessageAttributes` from `pylon/component.py`: deep-copy the
message, stamp `ingestionId` / `artifactName` / `artifactVersion` from the
ingestion step, and for a data asset additionally stamp the lineage id on
the asset and on every inner row. -/
def _populateMessageAttributes (message : BaseMessage) (ingestionStep : IngestionStep) :
    Except PyErr BaseMessage :=
  let message :=
    { message with ingestionId := .str ingestionStep.ingestionId,
                   artifactName := .str ingestionStep.artifactName,
                   artifactVersion := .str ingestionStep.artifactVersion }
  if message.objectType == .str ObjectType.DATA_ASSET then
    match message.body with
    | .dataAsset d =>
      .ok { message with
              body := .dataAsset
                { d with ingestionId := .str ingestionStep.ingestionId,
                         data := d.data.map (fun row =>
                           dictSet row "ingestion_id" (.str ingestionStep.ingestionId)) } }
    | _ => .error .attributeError
  else .ok message

/-- One log record, as far as the runtime's observable behaviour goes. -/
inductive LogEntry where
  | info (s : String)
  | warning (s : String)
  | exception (e : PyErr)
deriving DecidableEq, Repr

/-- An input file of the folder source, identified by its decoding outcome:
`getMessage` either yields a message or raises while decoding. -/
inductive SourceFile where
  | ok (m : BaseMessage)
  | bad (e : PyErr)
deriving DecidableEq, Repr

/-- The world state a cycle acts on: the folder source's files, the
messages handed to the sink adapter, the S3 collaborator, the log, and the
counter from which fresh uuids are drawn. -/
structure World where
  sourceFiles : List SourceFile := []
  sink : List BaseMessage := []
  store : S3State := {}
  log : List LogEntry := []
  nextUuid : Nat := 0
deriving DecidableEq, Repr

/-- A stateful, fallible runtime computation: Python side effects persist
even when an exception is flying, so the world is returned in both
outcomes. -/
def PyM (α : Type) : Type := World → Except PyErr α × World

/-- Sequence two runtime computations. -/
def pyBind (x : PyM α) (f : α → PyM β) : PyM β := fun w =>
  match x w with
  | (.ok a, w') => f a w'
  | (.error e, w') => (.error e, w')

/-- Return a value without touching the world. -/
def pyPure (a : α) : PyM α := fun w => (.ok a, w)

/-- Raise an exception. -/
def pyThrow (e : PyErr) : PyM α := fun w => (.error e, w)

/-- Append a log record. -/
def pyLog (entry : LogEntry) : PyM Unit := fun w =>
  (.ok (), { w with log := w.log ++ [entry] })

/-- Run a pure fallible step. -/
def pyLift (x : Except PyErr α) : PyM α := fun w => (x, w)

/-- What the user function may return: `None`, a single message, or an
iterable of optional messages. -/
inductive UserResult where
  | pyNone
  | single (m : BaseMessage)
  | many (ms : List (Option BaseMessage))
deriving DecidableEq, Repr

/-- A component: the user-supplied core function plus which adapters were
wired by `makeAdapters` (a pipeline has both, a source only output, a sink
only input, a null component neither). -/
structure Component where
  coreFunction : Option BaseMessage → PylonConfig → Except PyErr UserResult
  hasInput : Bool
  hasOutput : Bool

/-- `Component._getIngestionStep` plus `IngestionStep.populate`: construct a
fresh step whose `parentIngestionId` is the input message's `ingestionId`
(or `None`), with artifact identity from the configuration (a missing
`IMAGE_NAME`/`VERSION` logs a warning).  `uuid.uuid1()` is modelled by the
world's uuid counter and the wall-clock dimension fields by zero. -/
def _getIngestionStep (config : PylonConfig) (message : Option BaseMessage) :
    PyM IngestionStep := fun w =>
  let freshId := "uuid1-" ++ toString w.nextUuid
  let parent : PyVal :=
    match message with
    | some m => m.ingestionId
    | Option.none => .none
  let nameLogs : String × List LogEntry :=
    match config.imageName with
    | some s => (s, [])
    | Option.none =>
      ("", [.warning ("IMAGE_NAME not defined in configuration, IngestionStep " ++ freshId ++
                      " is missing key information")])
  let versionLogs : String × List LogEntry :=
    match config.version with
    | some s => (s, [])
    | Option.none =>
      ("", [.warning ("VERSION not defined in configuration, IngestionStep " ++ freshId ++
                      " is missing key information")])
  let step : IngestionStep :=
    { ingestionId := freshId, parentIngestionId := parent,
      artifactName := nameLogs.1, artifactVersion := versionLogs.1,
      dimUTCTimestamp := 0, dimUTCDateId := 0, dimUTCHour := 0, metadata := [] }
  (.ok step,
   { w with nextUuid := w.nextUuid + 1, log := w.log ++ nameLogs.2 ++ versionLogs.2 })

/-- `Component._processInput`: rehydrate a checked-in input message through
`_retrieveMessageBody`, then invoke the user function. -/
def Component._processInput (c : Component) (config : PylonConfig)
    (message : Option BaseMessage) : PyM UserResult := fun w =>
  let pre : Except PyErr (Option BaseMessage) :=
    match message with
    | some msg =>
      if msg.isCheckedIn then (_retrieveMessageBody msg w.store).map some
      else .ok (some msg)
    | Option.none => .ok Option.none
  match pre with
  | .error e => (.error e, w)
  | .ok m => (c.coreFunction m config, w)

/-- The generator built in `Component._processOutput`, as consumed lazily by
the sink's `sendMessages` loop: each non-`None` result is stamped
(`_populateMessageAttributes`), passed through the offload decision
(`_storeMessageBody`) and then handed to the sink, one message at a time. -/
def sendPrepared (config : PylonConfig) (step : IngestionStep) :
    List (Option BaseMessage) → PyM Unit
  | [] => pyPure ()
  | Option.none :: rest => sendPrepared config step rest
  | some msg :: rest => fun w =>
    match _populateMessageAttributes msg step with
    | .error e => (.error e, w)
    | .ok m1 =>
      match _storeMessageBody m1 config w.store with
      | .error e => (.error e, w)
      | .ok (m2, σ) =>
        sendPrepared config step rest
          { w with store := σ, sink := w.sink ++ [m2] }

/-- `Component._sendMessages`: drive the prepared-message generator into the
sink; a `MessageTooLarge` from the sink is re-raised with an actionable
message. -/
def Component._sendMessages (_c : Component) (config : PylonConfig) (step : IngestionStep)
    (items : List (Option BaseMessage)) : PyM Unit := fun w =>
  match sendPrepared config step items w with
  | (.error (.messageTooLarge _), w') =>
    (.error (.messageTooLarge
      ("Failed to send message because it is too large. Try using " ++
       "PYLON_STORE_DESTINATION and PYLON_STORE_MIN_MESSAGE_BYTES to store the body" ++
       "of large messages before sending them.")), w')
  | r => r

/-- `Component._processOutput`: normalize the user function's result into a
sequence (a non-iterable result becomes a one-element list) and send it. -/
def Component._processOutput (c : Component) (config : PylonConfig)
    (results : UserResult) (step : IngestionStep) : PyM Unit :=
  let items : List (Option BaseMessage) :=
    match results with
    | .single m => [some m]
    | .many ms => ms
    | .pyNone => [Option.none]
  c._sendMessages config step items

/-- `Component._runOnce`: build the ingestion step, process the input, then
(for a component with output) either send the results or warn when the user
function returned `None`; finally merge the cycle duration into the step's
metadata and emit the step as a log record.  The wall-clock duration is
modelled by zero. -/
def Component._runOnce (c : Component) (config : PylonConfig)
    (message : Option BaseMessage) : PyM Unit :=
  pyBind (_getIngestionStep config message) (fun step =>
  pyBind (pyLog (.info "heartbeat: core_process")) (fun _ =>
  pyBind (c._processInput config message) (fun results =>
  pyBind (if c.hasOutput then
            match results with
            | .pyNone => pyLog (.warning "Component did not produce any output")
            | r => c._processOutput config r step
          else pyPure ()) (fun _ =>
  pyLog (.info ("INGESTION_STEP: " ++
    (step.updateMetadata [("durationSeconds", .int 0)]).toJSON))))))

/-- The body of `Component.runOnce` before exception handling: for a
component with input, acquire one message from the folder source under the
`getMessage` scope (no available message is the expected
`NoMessagesAvailable` control flow and ends the cycle silently; a file that
fails to decode raises) and delete the file only when the cycle body
returns normally. -/
def Component.runOnceRaw (c : Component) (config : PylonConfig) : PyM Unit := fun w0 =>
  let w := { w0 with log := w0.log ++ [.info "heartbeat: run_once"] }
  if c.hasInput then
    match w0.sourceFiles with
    | [] => (.ok (), w)
    | .bad e :: _ => (.error e, w)
    | .ok msg :: _ =>
      match c._runOnce config (some msg) w with
      | (.ok _, w') => (.ok (), { w' with sourceFiles := w'.sourceFiles.tail })
      | (.error e, w') => (.error e, w')
  else c._runOnce config Option.none w

/-- `Component.runOnce` under `catchAllExceptionsToLog` from
`pylon/utils/__init__.py`: with `PYLON_ALLOW_EXCEPTIONS` the exception
propagates to the caller; otherwise it is caught and logged and the call
returns normally. -/
def Component.runOnce (c : Component) (config : PylonConfig) (allowExceptions : Bool) :
    PyM Unit := fun w =>
  if allowExceptions then c.runOnceRaw config w
  else
    match c.runOnceRaw config w with
    | (.ok u, w') => (.ok u, w')
    | (.error e, w') => (.ok (), { w' with log := w'.log ++ [.exception e] })

/-- `GracefulLooper.runForever` from `pylon/utils/__init__.py`: the loop
`while not self.shutdown: func(); sleep()` where the SIGINT/SIGTERM handler
only sets `self.shutdown = True`.  `sig i` says whether a shutdown signal
arrives while cycle `i` (or its sleep) is running; the handler never
interrupts the cycle, so the flag takes effect only at the next loop test.
The result lists the indices of the cycles that run (each to completion);
`fuel` bounds the length of the observed trace. -/
def loopRun (sig : Nat → Bool) : Nat → Bool → Nat → List Nat
  | 0, _, _ => []
  | fuel + 1, shutdown, i =>
    if shutdown then []
    else i :: loopRun sig fuel (shutdown || sig i) (i + 1)

/-!  Round-trip apparatus for the envelope codec. -/

/-- The attribute names reserved by the codec: the five fixed attributes
plus the optional store key. -/
def fixedAttributeNames : List String :=
  [MessageAttribute.PAYLOAD_MIME_TYPE, MessageAttribute.OBJECT_TYPE,
   MessageAttribute.INGESTION_ID, MessageAttribute.ARTIFACT_NAME,
   MessageAttribute.ARTIFACT_VERSION, MessageAttribute.PAYLOAD_STORE_KEY]

/-- The body is coherent with the message's `objectType` and check-in
state: a checked-in message carries the (non-empty) store-key string, a
data-asset / ingestion-step message carries the corresponding structured
body, and any other message carries a non-empty string. -/
def bodyMatchesType (m : BaseMessage) : Bool :=
  if m.payloadStoreKey != .none then
    match m.body with
    | .str s => !s.data.isEmpty
    | _ => false
  else if m.objectType == .str ObjectType.DATA_ASSET then
    match m.body with
    | .dataAsset _ => true
    | _ => false
  else if m.objectType == .str ObjectType.INGESTION_STEP then
    match m.body with
    | .ingestionStep _ => true
    | _ => false
  else
    match m.body with
    | .str s => !s.data.isEmpty
    | _ => false

/-- The conditions under which the envelope codec is lossless: the custom
attribute keys are distinct (always true of a Python dict) and do not
collide with the reserved attribute names, and the body is non-empty and
coherent with the message's type tag. -/
def wfRoundtrip (m : BaseMessage) : Prop :=
  (dictKeys m.customAttributes).Nodup ∧
  (∀ k ∈ dictKeys m.customAttributes, k ∉ fixedAttributeNames) ∧
  bodyMatchesType m = true

instance (m : BaseMessage) : Decidable (wfRoundtrip m) := by
  unfold wfRoundtrip
  infer_instance

/-!  Payload store round-trip apparatus. -/

/-- The message's body can actually be written to the store: the
(sub)class's `serializeBody` produces a string (`putObject` encodes the
body as UTF-8, and the structured classes serialize a matching structured
body). -/
def storable (m : BaseMessage) : Bool :=
  match m.cls, m.body with
  | .ingestion, .ingestionStep _ => true
  | .dataAsset, .dataAsset _ => true
  | .ingestion, _ => false
  | .dataAsset, _ => false
  | _, .str _ => true
  | _, _ => false

/-- The string content that `serializeBody` leaves in the body of a
storable message. -/
def serializedContent (m : BaseMessage) : String :=
  match m.body with
  | .str s => s
  | .dataAsset d => d.toJSON
  | .ingestionStep st => st.toJSON
  | .none => ""

/-!  Runtime frame lemmas: no step of a cycle touches the folder source;
only the end-of-cycle `os.remove` (on normal completion) does. -/

/-- The computation leaves the folder source untouched in both outcomes. -/
def preservesSourceFiles (x : PyM α) : Prop :=
  ∀ w, ((x w).2).sourceFiles = w.sourceFiles

/-!  Concrete fixtures used by witnesses and counterexamples. -/

/-- A raw-content message carrying the body `"hello"` (the spec's example
scenario). -/
def msgHello : BaseMessage :=
  { cls := .rawContent, body := .str "hello", payloadMimeType := .str "text",
    objectType := .str ObjectType.RAW_CONTENT }

/-- A freshly constructed `BaseMessage()`: every slot is `None` and the
custom attributes are empty. -/
def bareMessage : BaseMessage := {}

/-- A `DataAssetMessage` whose body slot holds a string instead of a
`DataAsset` (as after a manual body assignment). -/
def strBodyAssetMessage : BaseMessage :=
  { cls := .dataAsset, body := .str "x", payloadMimeType := .str "text/json",
    objectType := .str ObjectType.DATA_ASSET }

/-- An input message sitting in the folder source. -/
def plainInputMessage : BaseMessage :=
  { cls := .base, body := .str "in", payloadMimeType := .str "text",
    objectType := .str ObjectType.RAW_CONTENT }

/-- An output message that is already checked in. -/
def c4m1 : BaseMessage :=
  { cls := .base, body := .str "s3://b/k", payloadMimeType := .str "text",
    objectType := .str ObjectType.RAW_CONTENT, payloadStoreKey := .str "s3://b/k" }

/-- An output message that is not checked in. -/
def c4m2 : BaseMessage :=
  { cls := .base, body := .str "big", payloadMimeType := .str "text",
    objectType := .str ObjectType.RAW_CONTENT }

/-- A pipeline component returning one already-checked-in message and one
plain message. -/
def c4Comp : Component :=
  { coreFunction := fun _ _ => .ok (.many [some c4m1, some c4m2]),
    hasInput := true, hasOutput := true }

/-- An offload configuration with an unsupported destination scheme and a
zero threshold. -/
def c4Cfg : PylonConfig :=
  { storeDestination := some "gs://bucket", storeMinMessageBytes := some 0,
    imageName := some "img", version := some "v1" }

/-- A world with one decodable input file. -/
def c4World : World := { sourceFiles := [.ok plainInputMessage] }

/-- A pipeline component whose user function returns `[None]`. -/
def c7Comp : Component :=
  { coreFunction := fun _ _ => .ok (.many [Option.none]),
    hasInput := true, hasOutput := true }

/-- A pipeline component whose user function returns `None`. -/
def c7aComp : Component :=
  { coreFunction := fun _ _ => .ok .pyNone, hasInput := true, hasOutput := true }

/-- A fully populated configuration with no offload options. -/
def c7Cfg : PylonConfig := { imageName := some "img", version := some "v1" }

/-- A world with one decodable input file for the no-output scenarios. -/
def c7World : World := { sourceFiles := [.ok plainInputMessage] }

/-- A wire attribute map with the five fixed attributes and one custom
attribute. -/
def c10attrs : Dict PyVal :=
  [("payloadMimeType", .str "text"), ("objectType", .str "rawContent"),
   ("ingestionId", .none), ("artifactName", .none), ("artifactVersion", .none),
   ("custom1", .str "v")]

theorem decNat_enc (n : Nat) (r : List Char) : decNat (encNat n ++ r) = some (n, r) := by
  induction n with
  | zero => simp [encNat, decNat]
  | succ n ih =>
    have h : encNat (n + 1) ++ r = '1' :: (encNat n ++ r) := by
      simp [encNat, List.replicate_succ]
    rw [h]
    simp only [decNat, if_pos]
    simp [ih]

theorem decStr_enc (s : String) (r : List Char) : decStr (encStr s ++ r) = some (s, r) := by
  simp only [encStr, decStr, List.append_assoc, decNat_enc, Option.bind_some]
  simp [List.take_left, List.drop_left]

theorem decInt_enc (i : Int) (r : List Char) : decInt (encInt i ++ r) = some (i, r) := by
  cases i <;> simp [encInt, decInt, decNat_enc]

theorem decPyVal_enc (v : PyVal) (r : List Char) : decPyVal (encPyVal v ++ r) = some (v, r) := by
  cases v with
  | none => simp [encPyVal, decPyVal]
  | str s => simp [encPyVal, decPyVal, decStr_enc]
  | bool b => cases b <;> simp [encPyVal, decPyVal]
  | int i => simp [encPyVal, decPyVal, decInt_enc]

theorem decListN_enc (dec : List Char → Option (α × List Char)) (enc : α → List Char)
    (hok : ∀ a r, dec (enc a ++ r) = some (a, r)) (xs : List α) (r : List Char) :
    decListN dec xs.length ((xs.map enc).flatten ++ r) = some (xs, r) := by
  induction xs with
  | nil => simp [decListN]
  | cons x xs ih =>
    simp only [List.map_cons, List.flatten_cons, List.length_cons, decListN, List.append_assoc,
      hok, Option.bind_some]
    simp [ih]

theorem decListWith_enc (dec : List Char → Option (α × List Char)) (enc : α → List Char)
    (hok : ∀ a r, dec (enc a ++ r) = some (a, r)) (xs : List α) (r : List Char) :
    decListWith dec (encListWith enc xs ++ r) = some (xs, r) := by
  simp [decListWith, encListWith, List.append_assoc, decNat_enc, decListN_enc dec enc hok]

theorem decAttr_enc (kv : String × PyVal) (r : List Char) :
    decAttr (encAttr kv ++ r) = some (kv, r) := by
  simp [decAttr, encAttr, List.append_assoc, decStr_enc, decPyVal_enc]

theorem decDataAsset_enc (d : DataAsset) (r : List Char) :
    decDataAsset (encDataAsset d ++ r) = some (d, r) := by
  simp [decDataAsset, encDataAsset, List.append_assoc, decStr_enc, decPyVal_enc,
    decListWith_enc decStr encStr decStr_enc, decListWith_enc decAttr encAttr decAttr_enc,
    decListWith_enc (decListWith decAttr) (encListWith encAttr)
      (decListWith_enc decAttr encAttr decAttr_enc)]

theorem decIngestionStep_enc (st : IngestionStep) (r : List Char) :
    decIngestionStep (encIngestionStep st ++ r) = some (st, r) := by
  simp [decIngestionStep, encIngestionStep, List.append_assoc, decStr_enc, decPyVal_enc,
    decInt_enc, decListWith_enc decAttr encAttr decAttr_enc]

theorem DataAsset.fromJSON_toJSON_da (d : DataAsset) : DataAsset.fromJSON d.toJSON = some d := by
  have h := decDataAsset_enc d []
  simp only [List.append_nil] at h
  simp [DataAsset.fromJSON, DataAsset.toJSON, h]

theorem IngestionStep.fromJSON_toJSON_is (st : IngestionStep) :
    IngestionStep.fromJSON st.toJSON = some st := by
  have h := decIngestionStep_enc st []
  simp only [List.append_nil] at h
  simp [IngestionStep.fromJSON, IngestionStep.toJSON, h]

theorem DataAsset.toJSON_ne_empty_da (d : DataAsset) : d.toJSON.data ≠ [] := by
  simp [DataAsset.toJSON]

theorem IngestionStep.toJSON_ne_empty_is (st : IngestionStep) : st.toJSON.data ≠ [] := by
  simp [IngestionStep.toJSON]

/-!  Supporting lemmas about the dict model. -/

theorem dictHasKey_append (d e : Dict α) (k : String) :
    dictHasKey (d ++ e) k = (dictHasKey d k || dictHasKey e k) := by
  simp [dictHasKey, List.any_append]

theorem dictSet_fresh (d : Dict α) (k : String) (v : α) (h : dictHasKey d k = false) :
    dictSet d k v = d ++ [(k, v)] := by
  simp [dictSet, h]

theorem dictUpdate_append (e d : Dict α)
    (hd : ∀ k ∈ dictKeys e, dictHasKey d k = false)
    (hnd : (dictKeys e).Nodup) :
    dictUpdate d e = d ++ e := by
  induction e generalizing d with
  | nil => simp [dictUpdate]
  | cons kv rest ih =>
    have hnd2 : (kv.1 :: dictKeys rest).Nodup := by
      simpa only [dictKeys, List.map_cons] using hnd
    have hknotin : kv.1 ∉ dictKeys rest := (List.nodup_cons.mp hnd2).1
    have hnd' : (dictKeys rest).Nodup := (List.nodup_cons.mp hnd2).2
    have h1 : dictHasKey d kv.1 = false := by
      apply hd kv.1
      simp only [dictKeys, List.map_cons]
      exact List.mem_cons_self _ _
    have hstep : dictUpdate d (kv :: rest) = dictUpdate (d ++ [kv]) rest := by
      simp [dictUpdate, dictSet_fresh d kv.1 kv.2 h1]
    have hd' : ∀ k ∈ dictKeys rest, dictHasKey (d ++ [kv]) k = false := by
      intro k hk
      have hkmem : k ∈ dictKeys (kv :: rest) := by
        simp only [dictKeys, List.map_cons]
        exact List.mem_cons_of_mem _ hk
      have hne : (kv.1 == k) = false := by
        simp only [beq_eq_false_iff_ne]
        intro hcontra
        exact hknotin (hcontra ▸ hk)
      rw [dictHasKey_append, hd k hkmem]
      simp [dictHasKey, hne]
    rw [hstep, ih (d ++ [kv]) hd' hnd']
    simp

theorem mapSet_noKey (d : Dict α) (k : String) (v : α)
    (h : ∀ kv ∈ d, (kv.1 == k) = false) :
    d.map (fun kv => if kv.1 == k then (k, v) else kv) = d := by
  induction d with
  | nil => simp
  | cons kv rest ih =>
    have h0 : (kv.1 == k) = false := h kv (by simp)
    simp only [List.map_cons, h0, Bool.false_eq_true, if_false]
    rw [ih (fun x hx => h x (by simp [hx]))]

theorem dictGet?_noKey (d : Dict α) (k : String) (h : ∀ kv ∈ d, (kv.1 == k) = false) :
    dictGet? d k = Option.none := by
  have : d.find? (fun kv => kv.1 == k) = Option.none := by
    rw [List.find?_eq_none]
    intro x hx
    simp [h x hx]
  simp [dictGet?, this]

theorem dictPop?_noKey (d : Dict α) (k : String) (h : ∀ kv ∈ d, (kv.1 == k) = false) :
    dictPop? d k = Option.none := by
  simp [dictPop?, dictGet?_noKey d k h]

theorem dictPop?_cons_hit (t : Dict α) (k : String) (v : α) :
    dictPop? ((k, v) :: t) k = some (v, t) := by
  simp [dictPop?, dictGet?, dictErase, List.find?_cons, List.eraseP_cons]

theorem dictGet?_append_last (d : Dict α) (k : String) (v : α)
    (h : ∀ kv ∈ d, (kv.1 == k) = false) :
    dictGet? (d ++ [(k, v)]) k = some v := by
  induction d with
  | nil => simp [dictGet?, List.find?_cons]
  | cons kv rest ih =>
    have h0 : (kv.1 == k) = false := h kv (by simp)
    have ih' := ih (fun x hx => h x (by simp [hx]))
    simp only [dictGet?, List.cons_append, List.find?_cons, h0] at ih' ⊢
    exact ih'

theorem dictErase_append_last (d : Dict α) (k : String) (v : α)
    (h : ∀ kv ∈ d, (kv.1 == k) = false) :
    dictErase (d ++ [(k, v)]) k = d := by
  induction d with
  | nil => simp [dictErase, List.eraseP_cons]
  | cons kv rest ih =>
    have h0 : (kv.1 == k) = false := h kv (by simp)
    have ih' := ih (fun x hx => h x (by simp [hx]))
    simp only [dictErase, List.cons_append, List.eraseP_cons, h0] at ih' ⊢
    simp [ih']

theorem dictPop?_append_last (d : Dict α) (k : String) (v : α)
    (h : ∀ kv ∈ d, (kv.1 == k) = false) :
    dictPop? (d ++ [(k, v)]) k = some (v, d) := by
  simp [dictPop?, dictGet?_append_last d k v h, dictErase_append_last d k v h]

theorem encodeBody_dataAsset (d : DataAsset) : encodeBody (.dataAsset d) = d.toJSON := by
  simp [encodeBody, DataAsset.toJSON]

theorem encodeBody_ingestionStep (st : IngestionStep) :
    encodeBody (.ingestionStep st) = st.toJSON := by
  simp [encodeBody, IngestionStep.toJSON]

theorem encodeBody_str (s : String) (h : s.data.isEmpty = false) :
    encodeBody (.str s) = s := by
  simp [encodeBody, h]

/-- The attribute map built by `encode_message` (and by `encodeMessage`
before the wire coercion), for a message whose custom attributes avoid the
reserved names: the five fixed attributes, then the custom attributes, then
the store key when the message is checked in. -/
theorem encode_attributes_shape (m : BaseMessage)
    (hnd : (dictKeys m.customAttributes).Nodup)
    (hdisj : ∀ k ∈ dictKeys m.customAttributes, k ∉ fixedAttributeNames) :
    (encode_message m).attributes =
      ([(MessageAttribute.PAYLOAD_MIME_TYPE, m.payloadMimeType),
        (MessageAttribute.OBJECT_TYPE, m.objectType),
        (MessageAttribute.INGESTION_ID, m.ingestionId),
        (MessageAttribute.ARTIFACT_NAME, m.artifactName),
        (MessageAttribute.ARTIFACT_VERSION, m.artifactVersion)] ++ m.customAttributes) ++
      (if m.payloadStoreKey != .none
       then [(MessageAttribute.PAYLOAD_STORE_KEY, m.payloadStoreKey)] else []) := by
  have hne : ∀ k ∈ dictKeys m.customAttributes,
      k ≠ MessageAttribute.PAYLOAD_MIME_TYPE ∧ k ≠ MessageAttribute.OBJECT_TYPE ∧
      k ≠ MessageAttribute.INGESTION_ID ∧ k ≠ MessageAttribute.ARTIFACT_NAME ∧
      k ≠ MessageAttribute.ARTIFACT_VERSION ∧ k ≠ MessageAttribute.PAYLOAD_STORE_KEY := by
    intro k hk
    have h6 := hdisj k hk
    simp only [fixedAttributeNames, List.mem_cons, List.not_mem_nil, not_or, or_false] at h6
    exact ⟨h6.1, h6.2.1, h6.2.2.1, h6.2.2.2.1, h6.2.2.2.2.1, h6.2.2.2.2.2⟩
  have hb5 : ∀ k ∈ dictKeys m.customAttributes,
      dictHasKey [(MessageAttribute.PAYLOAD_MIME_TYPE, m.payloadMimeType),
        (MessageAttribute.OBJECT_TYPE, m.objectType),
        (MessageAttribute.INGESTION_ID, m.ingestionId),
        (MessageAttribute.ARTIFACT_NAME, m.artifactName),
        (MessageAttribute.ARTIFACT_VERSION, m.artifactVersion)] k = false := by
    intro k hk
    obtain ⟨h1, h2, h3, h4, h5, _⟩ := hne k hk
    simp [dictHasKey, beq_eq_false_iff_ne.mpr (Ne.symm h1), beq_eq_false_iff_ne.mpr (Ne.symm h2),
      beq_eq_false_iff_ne.mpr (Ne.symm h3), beq_eq_false_iff_ne.mpr (Ne.symm h4),
      beq_eq_false_iff_ne.mpr (Ne.symm h5)]
  have hupd := dictUpdate_append m.customAttributes _ hb5 hnd
  have hcustIID : ∀ kv ∈ m.customAttributes,
      (kv.1 == MessageAttribute.INGESTION_ID) = false := by
    intro kv hkv
    have := (hne kv.1 (by simp only [dictKeys, List.mem_map]; exact ⟨kv, hkv, rfl⟩)).2.2.1
    exact beq_eq_false_iff_ne.mpr this
  have hcustPSK : ∀ kv ∈ m.customAttributes,
      (kv.1 == MessageAttribute.PAYLOAD_STORE_KEY) = false := by
    intro kv hkv
    have := (hne kv.1 (by simp only [dictKeys, List.mem_map]; exact ⟨kv, hkv, rfl⟩)).2.2.2.2.2
    exact beq_eq_false_iff_ne.mpr this
  have hmap := mapSet_noKey m.customAttributes MessageAttribute.INGESTION_ID
    m.ingestionId hcustIID
  have hcustHasPSK : dictHasKey m.customAttributes MessageAttribute.PAYLOAD_STORE_KEY = false := by
    simp only [dictHasKey, List.any_eq_false]
    intro kv hkv
    simp [hcustPSK kv hkv]
  have hsetIID :
      dictSet (([(MessageAttribute.PAYLOAD_MIME_TYPE, m.payloadMimeType),
        (MessageAttribute.OBJECT_TYPE, m.objectType),
        (MessageAttribute.INGESTION_ID, m.ingestionId),
        (MessageAttribute.ARTIFACT_NAME, m.artifactName),
        (MessageAttribute.ARTIFACT_VERSION, m.artifactVersion)] : Dict PyVal) ++
        m.customAttributes) MessageAttribute.INGESTION_ID m.ingestionId =
      ([(MessageAttribute.PAYLOAD_MIME_TYPE, m.payloadMimeType),
        (MessageAttribute.OBJECT_TYPE, m.objectType),
        (MessageAttribute.INGESTION_ID, m.ingestionId),
        (MessageAttribute.ARTIFACT_NAME, m.artifactName),
        (MessageAttribute.ARTIFACT_VERSION, m.artifactVersion)] : Dict PyVal) ++
        m.customAttributes := by
    simp only [beq_iff_eq, MessageAttribute.INGESTION_ID] at hmap
    simp [dictSet, dictHasKey, List.any_append, List.map_append,
      MessageAttribute.PAYLOAD_MIME_TYPE, MessageAttribute.OBJECT_TYPE,
      MessageAttribute.INGESTION_ID, MessageAttribute.ARTIFACT_NAME,
      MessageAttribute.ARTIFACT_VERSION, hmap]
  have hfreshPSK :
      dictHasKey (([(MessageAttribute.PAYLOAD_MIME_TYPE, m.payloadMimeType),
        (MessageAttribute.OBJECT_TYPE, m.objectType),
        (MessageAttribute.INGESTION_ID, m.ingestionId),
        (MessageAttribute.ARTIFACT_NAME, m.artifactName),
        (MessageAttribute.ARTIFACT_VERSION, m.artifactVersion)] : Dict PyVal) ++
        m.customAttributes) MessageAttribute.PAYLOAD_STORE_KEY = false := by
    rw [dictHasKey_append, hcustHasPSK]
    simp [dictHasKey, MessageAttribute.PAYLOAD_MIME_TYPE, MessageAttribute.OBJECT_TYPE,
      MessageAttribute.INGESTION_ID, MessageAttribute.ARTIFACT_NAME,
      MessageAttribute.ARTIFACT_VERSION, MessageAttribute.PAYLOAD_STORE_KEY]
  have happend := dictSet_fresh _ MessageAttribute.PAYLOAD_STORE_KEY m.payloadStoreKey hfreshPSK
  have hsetIID' := hsetIID
  have happend' := happend
  simp only [List.cons_append, List.nil_append, List.append_assoc] at hsetIID' happend'
  cases hot : (m.objectType == .str ObjectType.INGESTION_STEP) <;>
    cases hpsk : (m.payloadStoreKey != PyVal.none) <;>
      simp [encode_message, hot, hpsk, hupd, hsetIID', happend']

theorem encode_message_body (m : BaseMessage) :
    (encode_message m).body = encodeBody m.body := rfl

theorem pyEq_forgetCls (m : BaseMessage) (c : MsgClass) :
    BaseMessage.pyEq { m with cls := c } m = true := by
  simp [BaseMessage.pyEq, dictPyEquiv, List.all_eq_true]

/-- Evaluation of `decode_message` on an attribute map of the shape built by
`encode_message` (five fixed attributes, custom attributes, optional store
key), with custom attribute keys avoiding the reserved names. -/
theorem decode_shaped (body : String) (a b c d e psk : PyVal) (cust : Dict PyVal)
    (hc : ∀ nm ∈ fixedAttributeNames, ∀ kv ∈ cust, (kv.1 == nm) = false) :
    decode_message body
      ((MessageAttribute.PAYLOAD_MIME_TYPE, a) :: (MessageAttribute.OBJECT_TYPE, b) ::
       (MessageAttribute.INGESTION_ID, c) :: (MessageAttribute.ARTIFACT_NAME, d) ::
       (MessageAttribute.ARTIFACT_VERSION, e) ::
       (cust ++ (if psk != PyVal.none
                 then [(MessageAttribute.PAYLOAD_STORE_KEY, psk)] else []))) =
    (if psk != PyVal.none then
       some (({ cls := .base, body := .str body, payloadMimeType := a, objectType := b,
                ingestionId := c, artifactName := d, artifactVersion := e,
                payloadStoreKey := psk, customAttributes := cust } : BaseMessage), cust)
     else if b == .str ObjectType.DATA_ASSET then
       (DataAsset.fromJSON body).map (fun da =>
         (({ cls := .base, body := .dataAsset da, payloadMimeType := a, objectType := b,
             ingestionId := c, artifactName := d, artifactVersion := e,
             payloadStoreKey := psk, customAttributes := cust } : BaseMessage), cust))
     else if b == .str ObjectType.INGESTION_STEP then
       (IngestionStep.fromJSON body).map (fun st =>
         (({ cls := .base, body := .ingestionStep st, payloadMimeType := a, objectType := b,
             ingestionId := c, artifactName := d, artifactVersion := e,
             payloadStoreKey := psk, customAttributes := cust } : BaseMessage), cust))
     else
       some (({ cls := .base, body := .str body, payloadMimeType := a, objectType := b,
                ingestionId := c, artifactName := d, artifactVersion := e,
                payloadStoreKey := psk, customAttributes := cust } : BaseMessage), cust)) := by
  have hPSKcust : ∀ kv ∈ cust, (kv.1 == MessageAttribute.PAYLOAD_STORE_KEY) = false :=
    hc MessageAttribute.PAYLOAD_STORE_KEY (by simp [fixedAttributeNames])
  cases hpsk : (psk != PyVal.none) with
  | false =>
    have hpskEq : psk = PyVal.none := by
      simpa using hpsk
    subst hpskEq
    simp only [List.append_nil, Bool.false_eq_true, if_false]
    simp [decode_message, dictPop?_cons_hit, dictPopD,
      dictPop?_noKey cust MessageAttribute.PAYLOAD_STORE_KEY hPSKcust,
      BaseMessage.isCheckedIn]
    by_cases hda : b = PyVal.str ObjectType.DATA_ASSET
    · simp only [hda, if_pos]
      cases DataAsset.fromJSON body <;>
        simp [ObjectType.DATA_ASSET, ObjectType.INGESTION_STEP]
    · by_cases hin : b = PyVal.str ObjectType.INGESTION_STEP
      · simp only [if_neg hda, hin, if_pos]
        cases IngestionStep.fromJSON body <;>
          simp [ObjectType.DATA_ASSET, ObjectType.INGESTION_STEP]
      · simp [hda, hin]
  | true =>
    have hne : ¬(psk = PyVal.none) := by
      simpa using hpsk
    simp [decode_message, dictPop?_cons_hit, dictPopD,
      dictPop?_append_last cust MessageAttribute.PAYLOAD_STORE_KEY psk hPSKcust,
      BaseMessage.isCheckedIn, hpsk, hne]

/-- C1 (amended): the envelope codec round-trip, for well-formed messages. -/
theorem decode_encode_roundtrip (m : BaseMessage) (h : wfRoundtrip m) :
    ∃ m' rest,
      decode_message (encode_message m).body (encode_message m).attributes = some (m', rest) ∧
      BaseMessage.pyEq m' m = true := by
  obtain ⟨hnd, hdisj, hbody⟩ := h
  have hshape := encode_attributes_shape m hnd hdisj
  have hcustNo : ∀ nm ∈ fixedAttributeNames, ∀ kv ∈ m.customAttributes, (kv.1 == nm) = false := by
    intro nm hnm kv hkv
    refine beq_eq_false_iff_ne.mpr ?_
    intro hEq
    exact absurd hnm
      (hEq ▸ hdisj kv.1 (by simp only [dictKeys, List.mem_map]; exact ⟨kv, hkv, rfl⟩))
  have hdec := decode_shaped (encodeBody m.body) m.payloadMimeType m.objectType m.ingestionId
    m.artifactName m.artifactVersion m.payloadStoreKey m.customAttributes hcustNo
  have hattrs : (encode_message m).attributes =
      ((MessageAttribute.PAYLOAD_MIME_TYPE, m.payloadMimeType) ::
       (MessageAttribute.OBJECT_TYPE, m.objectType) ::
       (MessageAttribute.INGESTION_ID, m.ingestionId) ::
       (MessageAttribute.ARTIFACT_NAME, m.artifactName) ::
       (MessageAttribute.ARTIFACT_VERSION, m.artifactVersion) ::
       (m.customAttributes ++ (if m.payloadStoreKey != PyVal.none
                 then [(MessageAttribute.PAYLOAD_STORE_KEY, m.payloadStoreKey)] else []))) := by
    rw [hshape]
    simp [List.cons_append, List.append_assoc]
  rw [encode_message_body, hattrs, hdec]
  cases hpsk : (m.payloadStoreKey != PyVal.none) with
  | true =>
    rcases hb : m.body with _ | s | d | st <;>
      simp [bodyMatchesType, hpsk, hb] at hbody
    case str =>
      have hse : s.data.isEmpty = false := by
        simpa using hbody
      rw [encodeBody_str s hse]
      simp only [hpsk, reduceIte]
      exact ⟨_, _, rfl, by simp [BaseMessage.pyEq, dictPyEquiv, List.all_eq_true, hb]⟩
  | false =>
    cases hot1 : (m.objectType == .str ObjectType.DATA_ASSET) with
    | true =>
      rcases hb : m.body with _ | s | d | st <;>
        simp [bodyMatchesType, hpsk, hot1, hb] at hbody
      case dataAsset =>
        rw [encodeBody_dataAsset d]
        simp only [hpsk, hot1, reduceIte, DataAsset.fromJSON_toJSON_da, Option.map_some]
        exact ⟨_, _, rfl, by simp [BaseMessage.pyEq, dictPyEquiv, List.all_eq_true, hb]⟩
    | false =>
      cases hot2 : (m.objectType == .str ObjectType.INGESTION_STEP) with
      | true =>
        rcases hb : m.body with _ | s | d | st <;>
          simp [bodyMatchesType, hpsk, hot1, hot2, hb] at hbody
        case ingestionStep =>
          rw [encodeBody_ingestionStep st]
          simp only [hpsk, hot1, hot2, reduceIte, IngestionStep.fromJSON_toJSON_is,
            Option.map_some]
          exact ⟨_, _, rfl, by simp [BaseMessage.pyEq, dictPyEquiv, List.all_eq_true, hb]⟩
      | false =>
        rcases hb : m.body with _ | s | d | st <;>
          simp [bodyMatchesType, hpsk, hot1, hot2, hb] at hbody
        case str =>
          have hse : s.data.isEmpty = false := by
            simpa using hbody
          rw [encodeBody_str s hse]
          exact ⟨_, _, rfl, by simp [BaseMessage.pyEq, dictPyEquiv, List.all_eq_true, hb]⟩

theorem serializeBody_storable (m : BaseMessage) (h : storable m = true) :
    m.serializeBody = some { m with body := .str (serializedContent m) } := by
  obtain ⟨cls, body, pmt, ot, ca, psk, iid, an, av⟩ := m
  cases cls <;> cases body <;>
    simp_all [storable, BaseMessage.serializeBody, serializedContent]

theorem find?_setReplace (d : Dict α) (k : String) (v : α) (h : dictHasKey d k = true) :
    (d.map (fun kv => if kv.1 == k then (k, v) else kv)).find? (fun kv => kv.1 == k)
      = some (k, v) := by
  induction d with
  | nil => simp [dictHasKey] at h
  | cons kv t ih =>
    cases h0 : (kv.1 == k) with
    | true =>
      simp only [List.map_cons, h0, reduceIte, List.find?_cons]
      simp
    | false =>
      have ht : dictHasKey t k = true := by
        simp only [dictHasKey, List.any_cons, h0, Bool.false_or] at h
        exact h
      simp only [List.map_cons, h0, Bool.false_eq_true, if_false, List.find?_cons]
      exact ih ht

theorem dictGet?_set_self (d : Dict α) (k : String) (v : α) :
    dictGet? (dictSet d k v) k = some v := by
  by_cases h : dictHasKey d k = true
  · simp only [dictSet, h, reduceIte, dictGet?, find?_setReplace d k v h]
    rfl
  · have h' : dictHasKey d k = false := by
      simpa using h
    have hall : ∀ kv ∈ d, (kv.1 == k) = false := by
      intro kv hkv
      have h2 := h'
      simp only [dictHasKey, List.any_eq_false] at h2
      simpa using h2 kv hkv
    simp only [dictSet, h', Bool.false_eq_true, if_false]
    exact dictGet?_append_last d k v hall

theorem getPath_valid (st : MessageStore) (σ : S3State)
    (hpre : pyStartsWith st.destRoot "s3://" = true) :
    validS3Path (st.getPath σ) = true := by
  rw [pyStartsWith, List.isPrefixOf_iff_prefix] at hpre
  obtain ⟨t, ht⟩ := hpre
  have hdata : (st.getPath σ).data =
      "s3://".data ++ (t ++ ('/' :: (toString σ.nextId).data)) := by
    simp [MessageStore.getPath, String.data_append, ← ht]
  have h5 : "s3://".data.length = 5 := rfl
  simp only [validS3Path, pyStartsWith, hdata, Bool.and_eq_true]
  constructor
  · rw [List.isPrefixOf_iff_prefix]
    exact List.prefix_append _ _
  · rw [← h5, List.drop_left]
    exact List.elem_eq_true_of_mem (by simp)

/-- The combined check-in / check-out behaviour of the S3 message store on
a storable message, under a well-formed destination: check-in succeeds,
stores the serialized body under the fresh key, and sets `body` and
`payloadStoreKey` to that key; check-out then restores the original body
and clears the key. -/
theorem checkIn_checkOut_spec (st : MessageStore) (m : BaseMessage) (σ : S3State)
    (hpre : pyStartsWith st.destRoot "s3://" = true)
    (hst : storable m = true) :
    ∃ m₁ σ₁ m₂,
      st.checkInPayload m σ = some (m₁, σ₁) ∧
      m₁.body = .str (st.getPath σ) ∧
      m₁.payloadStoreKey = .str (st.getPath σ) ∧
      MessageStore.checkOutPayload m₁ σ₁ = some m₂ ∧
      m₂.body = m.body ∧ m₂.payloadStoreKey = .none := by
  have hvalid := getPath_valid st σ hpre
  have hser := serializeBody_storable m hst
  have hin : st.checkInPayload m σ =
      some ({ m with body := .str (st.getPath σ), payloadStoreKey := .str (st.getPath σ) },
            { blobs := dictSet σ.blobs (st.getPath σ) (serializedContent m),
              nextId := σ.nextId + 1 }) := by
    simp [MessageStore.checkInPayload, hser, hvalid]
  have hout : MessageStore.checkOutPayload
      ({ m with body := .str (st.getPath σ), payloadStoreKey := .str (st.getPath σ) })
      ({ blobs := dictSet σ.blobs (st.getPath σ) (serializedContent m),
         nextId := σ.nextId + 1 }) = some ({ m with payloadStoreKey := .none }) := by
    have hget := dictGet?_set_self σ.blobs (st.getPath σ) (serializedContent m)
    obtain ⟨cls, body, pmt, ot, ca, psk, iid, an, av⟩ := m
    cases cls <;> cases body <;>
      simp_all [MessageStore.checkOutPayload, BaseMessage.deserializeBody, storable,
        serializedContent, DataAsset.fromJSON_toJSON_da, IngestionStep.fromJSON_toJSON_is]
  exact ⟨_, _, _, hin, rfl, rfl, hout, rfl, rfl⟩

theorem pyBind_preserves {x : PyM α} {f : α → PyM β}
    (hx : preservesSourceFiles x) (hf : ∀ a, preservesSourceFiles (f a)) :
    preservesSourceFiles (pyBind x f) := by
  intro w
  unfold pyBind
  have hx' := hx w
  cases hxw : x w with
  | mk r w' =>
    rw [hxw] at hx'
    cases r with
    | ok a =>
      have := hf a w'
      simp only [this]
      exact hx'
    | error e => exact hx'

theorem pyLog_preserves (entry : LogEntry) : preservesSourceFiles (pyLog entry) := by
  intro w
  rfl

theorem pyPure_preserves (a : α) : preservesSourceFiles (pyPure a) := by
  intro w
  rfl

theorem getIngestionStep_preserves (cfg : PylonConfig) (mo : Option BaseMessage) :
    preservesSourceFiles (_getIngestionStep cfg mo) := by
  intro w
  rfl

theorem processInput_preserves (c : Component) (cfg : PylonConfig)
    (mo : Option BaseMessage) : preservesSourceFiles (c._processInput cfg mo) := by
  intro w
  simp only [Component._processInput]
  split <;> rfl

theorem sendPrepared_preserves (cfg : PylonConfig) (step : IngestionStep)
    (items : List (Option BaseMessage)) :
    preservesSourceFiles (sendPrepared cfg step items) := by
  induction items with
  | nil => intro w; rfl
  | cons x rest ih =>
    intro w
    cases x with
    | none => exact ih w
    | some msg =>
      simp only [sendPrepared]
      cases hpop : _populateMessageAttributes msg step with
      | error e => rfl
      | ok m1 =>
        dsimp only
        cases hsto : _storeMessageBody m1 cfg w.store with
        | error e => rfl
        | ok p =>
          obtain ⟨m2, σ2⟩ := p
          simpa using ih _

theorem sendMessages_preserves (c : Component) (cfg : PylonConfig) (step : IngestionStep)
    (items : List (Option BaseMessage)) :
    preservesSourceFiles (c._sendMessages cfg step items) := by
  intro w
  simp only [Component._sendMessages]
  have h := sendPrepared_preserves cfg step items w
  cases hrun : sendPrepared cfg step items w with
  | mk r w' =>
    rw [hrun] at h
    cases r with
    | ok u => exact h
    | error e => cases e <;> exact h

theorem processOutput_preserves (c : Component) (cfg : PylonConfig)
    (results : UserResult) (step : IngestionStep) :
    preservesSourceFiles (c._processOutput cfg results step) := by
  unfold Component._processOutput
  exact sendMessages_preserves c cfg step _

theorem _runOnce_preserves (c : Component) (cfg : PylonConfig) (mo : Option BaseMessage) :
    preservesSourceFiles (c._runOnce cfg mo) := by
  unfold Component._runOnce
  apply pyBind_preserves (getIngestionStep_preserves cfg mo)
  intro step
  apply pyBind_preserves (pyLog_preserves _)
  intro _
  apply pyBind_preserves (processInput_preserves c cfg mo)
  intro results
  apply pyBind_preserves
  · cases hco : c.hasOutput with
    | false => simpa [hco] using pyPure_preserves ()
    | true =>
      cases results with
      | pyNone => simpa [hco] using pyLog_preserves _
      | single m => simpa [hco] using processOutput_preserves c cfg (.single m) step
      | many ms => simpa [hco] using processOutput_preserves c cfg (.many ms) step
  · intro _
    exact pyLog_preserves _

theorem runOnceRaw_error_sourceFiles (c : Component) (cfg : PylonConfig) (w : World)
    (e : PyErr) (w' : World) (h : c.runOnceRaw cfg w = (.error e, w')) :
    w'.sourceFiles = w.sourceFiles := by
  unfold Component.runOnceRaw at h
  cases hin : c.hasInput with
  | false =>
    rw [hin] at h
    simp only [Bool.false_eq_true, if_false] at h
    have hpres := _runOnce_preserves c cfg Option.none
      { w with log := w.log ++ [.info "heartbeat: run_once"] }
    rw [h] at hpres
    exact hpres
  | true =>
    rw [hin] at h
    simp only [reduceIte] at h
    cases hsf : w.sourceFiles with
    | nil =>
      rw [hsf] at h
      simp at h
    | cons f rest =>
      rw [hsf] at h
      cases f with
      | bad e' =>
        simp only at h
        cases h with
        | refl => rfl
      | ok msg =>
        simp only at h
        split at h
        · simp at h
        · rename_i e2 w2 heq
          cases h with
          | refl =>
            have hpres := _runOnce_preserves c cfg (some msg)
              { w with log := w.log ++ [.info "heartbeat: run_once"] }
            rw [hsf] at hpres
            rw [heq] at hpres
            simpa using hpres

theorem sendPrepared_allNone (cfg : PylonConfig) (step : IngestionStep)
    (items : List (Option BaseMessage)) (h : ∀ x ∈ items, x = Option.none) :
    ∀ w, sendPrepared cfg step items w = (.ok (), w) := by
  induction items with
  | nil => intro w; rfl
  | cons x rest ih =>
    intro w
    have hx : x = Option.none := h x (by simp)
    subst hx
    exact ih (fun y hy => h y (by simp [hy])) w

/-- A cycle whose user function always raises: the failure is reached after
lineage initialization and before any output dispatch, so the source, sink
and store are untouched. -/
theorem runOnceRaw_userError (c : Component) (cfg : PylonConfig) (w : World)
    (msg : BaseMessage) (rest : List SourceFile) (e : PyErr)
    (hin : c.hasInput = true)
    (hsf : w.sourceFiles = .ok msg :: rest)
    (hchk : msg.isCheckedIn = false)
    (huser : ∀ mo c', c.coreFunction mo c' = .error e) :
    ∃ w', c.runOnceRaw cfg w = (.error e, w') ∧
      w'.sink = w.sink ∧ w'.store = w.store ∧ w'.sourceFiles = w.sourceFiles := by
  unfold Component.runOnceRaw
  rw [hin, hsf]
  simp only [reduceIte]
  cases him : cfg.imageName <;> cases hver : cfg.version <;>
    simp [Component._runOnce, pyBind, pyLog, _getIngestionStep, Component._processInput,
      hchk, huser, him, hver, hsf]

/-- A cycle on a pipeline component whose user function returns `None`:
nothing is sent and the no-output warning is logged; the cycle completes
normally and the input is acknowledged. -/
theorem runOnceRaw_pyNone (c : Component) (cfg : PylonConfig) (w : World)
    (msg : BaseMessage) (rest : List SourceFile)
    (hin : c.hasInput = true) (hout : c.hasOutput = true)
    (hsf : w.sourceFiles = .ok msg :: rest)
    (hchk : msg.isCheckedIn = false)
    (huser : ∀ mo c', c.coreFunction mo c' = .ok .pyNone) :
    ∃ w', c.runOnceRaw cfg w = (.ok (), w') ∧
      w'.sink = w.sink ∧ w'.store = w.store ∧
      LogEntry.warning "Component did not produce any output" ∈ w'.log := by
  unfold Component.runOnceRaw
  rw [hin, hsf]
  simp only [reduceIte]
  cases him : cfg.imageName <;> cases hver : cfg.version <;>
    simp [Component._runOnce, pyBind, pyLog, _getIngestionStep, Component._processInput,
      hchk, huser, him, hver, hsf, hout]

/-- A cycle on a pipeline component whose user function returns an iterable
consisting only of `None` entries: nothing is sent, and no warning is
issued. -/
theorem runOnceRaw_manyNone (c : Component) (cfg : PylonConfig) (w : World)
    (msg : BaseMessage) (rest : List SourceFile) (ms : List (Option BaseMessage))
    (hin : c.hasInput = true) (hout : c.hasOutput = true)
    (hsf : w.sourceFiles = .ok msg :: rest)
    (hchk : msg.isCheckedIn = false)
    (huser : ∀ mo c', c.coreFunction mo c' = .ok (.many ms))
    (hms : ∀ x ∈ ms, x = Option.none) :
    ∃ w', c.runOnceRaw cfg w = (.ok (), w') ∧ w'.sink = w.sink ∧ w'.store = w.store := by
  unfold Component.runOnceRaw
  rw [hin, hsf]
  simp only [reduceIte]
  have hsend := sendPrepared_allNone cfg
  cases him : cfg.imageName <;> cases hver : cfg.version <;>
    simp [Component._runOnce, pyBind, pyLog, _getIngestionStep, Component._processInput,
      Component._processOutput, Component._sendMessages, hchk, huser, him, hver, hsf, hout,
      hsend _ _ hms]

/-!  Lemmas for the loop model and for decode-side inversion. -/

theorem loopRun_not_mem (sig : Nat → Bool) :
    ∀ (fuel i : Nat) (sd : Bool) (j : Nat),
      (sd = true ∨ ∃ j0, i ≤ j0 ∧ j0 < j ∧ sig j0 = true) →
      j ∉ loopRun sig fuel sd i := by
  intro fuel
  induction fuel with
  | zero => intro i sd j _; simp [loopRun]
  | succ fuel ih =>
    intro i sd j h
    cases sd with
    | true => simp [loopRun]
    | false =>
      rcases h with h | ⟨j0, hij, hjj, hsig⟩
      · exact absurd h (by simp)
      · simp only [loopRun, Bool.false_eq_true, if_false, List.mem_cons, not_or]
        constructor
        · omega
        · by_cases hji : j0 = i
          · subst hji
            exact ih (j0 + 1) _ j (Or.inl (by simp [hsig]))
          · exact ih (i + 1) _ j (Or.inr ⟨j0, by omega, hjj, hsig⟩)

theorem loopRun_mem (sig : Nat → Bool) :
    ∀ (fuel i k : Nat), i ≤ k → k < i + fuel →
      (∀ j, i ≤ j → j < k → sig j = false) →
      k ∈ loopRun sig fuel false i := by
  intro fuel
  induction fuel with
  | zero => intro i k h1 h2 _; omega
  | succ fuel ih =>
    intro i k hik hlt hpre
    simp only [loopRun, Bool.false_eq_true, if_false, List.mem_cons]
    rcases Nat.eq_or_lt_of_le hik with heq | hlt2
    · exact Or.inl heq.symm
    · right
      have hsi : sig i = false := hpre i le_rfl hlt2
      simp only [hsi, Bool.or_self]
      exact ih (i + 1) k hlt2 (by omega) (fun j hj1 hj2 => hpre j (by omega) hj2)

theorem dictPop?_snd (d : Dict α) (k : String) (p : α × Dict α)
    (h : dictPop? d k = some p) : p.2 = dictErase d k := by
  simp only [dictPop?, Option.map_eq_some'] at h
  obtain ⟨v, hv, hp⟩ := h
  rw [← hp]

theorem dictErase_of_noKey (d : Dict α) (k : String) (h : dictGet? d k = Option.none) :
    dictErase d k = d := by
  have hfind : d.find? (fun kv => kv.1 == k) = Option.none := by
    simp only [dictGet?] at h
    cases hf : d.find? (fun kv => kv.1 == k) with
    | none => rfl
    | some v => rw [hf] at h; simp at h
  rw [List.find?_eq_none] at hfind
  unfold dictErase
  apply List.eraseP_of_forall_not
  intro x hx
  simpa using hfind x hx

theorem dictPopD_snd (d : Dict α) (k : String) (dflt : α) :
    (dictPopD d k dflt).2 = dictErase d k := by
  unfold dictPopD
  cases hp : dictPop? d k with
  | some p => exact dictPop?_snd d k p hp
  | none =>
    have hg : dictGet? d k = Option.none := by
      simp only [dictPop?] at hp
      cases hg : dictGet? d k with
      | none => rfl
      | some v => rw [hg] at hp; simp at hp
    simp [dictErase_of_noKey d k hg]

theorem dictKeys_erase_sublist (d : Dict α) (k : String) :
    (dictKeys (dictErase d k)).Sublist (dictKeys d) := by
  unfold dictErase dictKeys
  exact (List.eraseP_sublist d).map (·.1)

theorem dictHasKey_false_of_sublist (d e : Dict α) (k : String)
    (hsub : (dictKeys e).Sublist (dictKeys d)) (h : dictHasKey d k = false) :
    dictHasKey e k = false := by
  simp only [dictHasKey, List.any_eq_false] at h ⊢
  intro kv hkv
  have : kv.1 ∈ dictKeys d := hsub.subset (by simp [dictKeys]; exact ⟨kv.2, hkv⟩)
  simp only [dictKeys, List.mem_map] at this
  obtain ⟨kv', hkv', hfst⟩ := this
  have := h kv' hkv'
  simpa [← hfst] using this

theorem dictHasKey_erase_self (d : Dict α) (k : String)
    (hnd : (dictKeys d).Nodup) : dictHasKey (dictErase d k) k = false := by
  induction d with
  | nil => rfl
  | cons kv t ih =>
    have hnd2 : (kv.1 :: dictKeys t).Nodup := by
      simpa only [dictKeys, List.map_cons] using hnd
    cases h0 : (kv.1 == k) with
    | true =>
      have hkeq : kv.1 = k := by
        simpa using h0
      simp only [dictErase, List.eraseP_cons, h0, cond_true]
      simp only [dictHasKey, List.any_eq_false]
      intro x hx
      have hne : x.1 ≠ kv.1 := by
        intro hcontra
        exact (List.nodup_cons.mp hnd2).1 (by
          simp only [dictKeys, List.mem_map]
          exact ⟨x, hx, hcontra⟩)
      simp [hkeq ▸ hne]
    | false =>
      have ih' := ih (List.nodup_cons.mp hnd2).2
      simp only [dictErase, List.eraseP_cons, h0, cond_false]
      simp only [dictHasKey, List.any_cons, h0, Bool.false_or]
      simpa only [dictErase, dictHasKey] using ih'

theorem dictKeys_erase_nodup (d : Dict α) (k : String)
    (hnd : (dictKeys d).Nodup) : (dictKeys (dictErase d k)).Nodup :=
  hnd.sublist (dictKeys_erase_sublist d k)

/-!  The claims. -/

/-- C1 counterexample: the round-trip claim fails as stated.  A
`NullMessage()` has the empty body, `encode_message` substitutes the
non-empty placeholder, and the decoded message compares unequal to the
original under `BaseMessage.__eq__`. -/
theorem claim_C1_counterexample :
    (decode_message (encode_message nullMessage).body
        (encode_message nullMessage).attributes).map
      (fun p => BaseMessage.pyEq p.1 nullMessage) = some false := by
  decide

/-- C1 witness: the round trip at the spec's concrete scenario message. -/
theorem claim_C1_witness :
    wfRoundtrip msgHello ∧
    ∃ m' rest,
      decode_message (encode_message msgHello).body (encode_message msgHello).attributes =
        some (m', rest) ∧ BaseMessage.pyEq m' msgHello = true :=
  ⟨by decide, decode_encode_roundtrip msgHello (by decide)⟩

/-- C2 counterexample: `checkOut(checkIn(m))` does not hold for every
message: checking in a freshly constructed `BaseMessage()` (body `None`)
raises (`putObject` cannot encode `None`) instead of returning a message. -/
theorem claim_C2_counterexample :
    (mkMessageStore "s3://bucket/payloads").checkInPayload bareMessage {} = Option.none := by
  rfl

/-- C2 (amended): for a message whose body serializes to a string and a
store rooted at a well-formed `s3://` destination, `checkOut(checkIn(m))`
reproduces `m`'s original body and clears `payloadStoreKey`; check-in
operates on a deep copy (modelled by the purely functional state passing)
and never mutates the caller's message. -/
theorem claim_C2_checkin_checkout (st : MessageStore) (m : BaseMessage) (σ : S3State)
    (hpre : pyStartsWith st.destRoot "s3://" = true) (hst : storable m = true) :
    ∃ m₁ σ₁ m₂,
      st.checkInPayload m σ = some (m₁, σ₁) ∧
      MessageStore.checkOutPayload m₁ σ₁ = some m₂ ∧
      m₂.body = m.body ∧ m₂.payloadStoreKey = .none := by
  obtain ⟨m₁, σ₁, m₂, h1, _, _, h4, h5, h6⟩ := checkIn_checkOut_spec st m σ hpre hst
  exact ⟨m₁, σ₁, m₂, h1, h4, h5, h6⟩

/-- C2 witness: the store round trip at a concrete message and store. -/
theorem claim_C2_witness :
    pyStartsWith (mkMessageStore "s3://bucket/payloads").destRoot "s3://" = true ∧
    storable msgHello = true ∧
    ∃ m₁ σ₁ m₂,
      (mkMessageStore "s3://bucket/payloads").checkInPayload msgHello {} = some (m₁, σ₁) ∧
      MessageStore.checkOutPayload m₁ σ₁ = some m₂ ∧
      m₂.body = msgHello.body ∧ m₂.payloadStoreKey = .none :=
  ⟨by decide, by decide,
   claim_C2_checkin_checkout (mkMessageStore "s3://bucket/payloads") msgHello {}
     (by decide) (by decide)⟩

/-- C5 counterexample: `checkIn` does not return a key-bodied message for
every message: a `DataAssetMessage` whose body slot holds a plain string
raises inside `serializeBody` (`str` has no `toJSON`). -/
theorem claim_C5_counterexample :
    (mkMessageStore "s3://bucket/payloads").checkInPayload strBodyAssetMessage {} =
      Option.none := by
  rfl

/-- C5 (amended): for a storable message and a well-formed store, `checkIn`
returns a message whose `body` and `payloadStoreKey` both equal the freshly
generated store key; the checked-in-iff-non-null-key invariant holds for
every message by definition of `isCheckedIn`; `checkOut` restores the
content and clears the key. -/
theorem claim_C5_checkin_invariant (st : MessageStore) (m : BaseMessage) (σ : S3State)
    (hpre : pyStartsWith st.destRoot "s3://" = true) (hst : storable m = true) :
    (∃ m₁ σ₁, st.checkInPayload m σ = some (m₁, σ₁) ∧
       m₁.body = .str (st.getPath σ) ∧ m₁.payloadStoreKey = .str (st.getPath σ) ∧
       m₁.isCheckedIn = true ∧
       ∃ m₂, MessageStore.checkOutPayload m₁ σ₁ = some m₂ ∧
         m₂.body = m.body ∧ m₂.payloadStoreKey = .none ∧ m₂.isCheckedIn = false) ∧
    (∀ x : BaseMessage, x.isCheckedIn = true ↔ x.payloadStoreKey ≠ .none) := by
  constructor
  · obtain ⟨m₁, σ₁, m₂, h1, h2, h3, h4, h5, h6⟩ := checkIn_checkOut_spec st m σ hpre hst
    refine ⟨m₁, σ₁, h1, h2, h3, ?_, m₂, h4, h5, h6, ?_⟩
    · simp [BaseMessage.isCheckedIn, h3]
    · simp [BaseMessage.isCheckedIn, h6]
  · intro x
    simp [BaseMessage.isCheckedIn, bne_iff_ne]

/-- C5 witness: check-in/check-out of a concrete data-asset message. -/
theorem claim_C5_witness :
    pyStartsWith (mkMessageStore "s3://bucket/p").destRoot "s3://" = true ∧
    storable (dataAssetMessage {}) = true ∧
    ((∃ m₁ σ₁, (mkMessageStore "s3://bucket/p").checkInPayload (dataAssetMessage {}) {} =
          some (m₁, σ₁) ∧
        m₁.body = .str ((mkMessageStore "s3://bucket/p").getPath {}) ∧
        m₁.payloadStoreKey = .str ((mkMessageStore "s3://bucket/p").getPath {}) ∧
        m₁.isCheckedIn = true ∧
        ∃ m₂, MessageStore.checkOutPayload m₁ σ₁ = some m₂ ∧
          m₂.body = (dataAssetMessage {}).body ∧ m₂.payloadStoreKey = .none ∧
          m₂.isCheckedIn = false) ∧
     (∀ x : BaseMessage, x.isCheckedIn = true ↔ x.payloadStoreKey ≠ .none)) :=
  ⟨by decide, by decide,
   claim_C5_checkin_invariant (mkMessageStore "s3://bucket/p") (dataAssetMessage {}) {}
     (by decide) (by decide)⟩

theorem rstripSlashes_isPrefix (p : String) : (rstripSlashes p).data <+: p.data := by
  unfold rstripSlashes
  refine ⟨(p.data.reverse.takeWhile (· == '/')).reverse, ?_⟩
  rw [← List.reverse_append, List.takeWhile_append_dropWhile, List.reverse_reverse]

theorem pyStartsWith_of_rstrip (dest : String)
    (h : pyStartsWith (rstripSlashes dest) "s3://" = true) :
    pyStartsWith dest "s3://" = true := by
  rw [pyStartsWith, List.isPrefixOf_iff_prefix] at h ⊢
  exact h.trans (rstripSlashes_isPrefix dest)

/-- C3 counterexample: the offload decision does not return the message
unchanged for every sub-threshold message: with an unsupported destination
scheme configured, `_getStoreFromConfig` raises `NotImplementedError`
before the threshold is even consulted. -/
theorem claim_C3_counterexample :
    (msgHello.getApproxSize : Int) < 1000000 ∧
    _storeMessageBody msgHello
        { storeDestination := some "gs://bucket", storeMinMessageBytes := some 1000000 } {} =
      .error (.notImplementedError "Unsupported message store gs://bucket") := by
  constructor
  · decide
  · rfl

/-- C3 (amended): the offload decision, for a destination using the
supported `s3://` scheme (surviving the trailing-slash strip): with both
options configured and the approximate size at or above the threshold the
resulting message is checked in (a not-yet-checked-in storable message is
written to the store; an already-checked-in one short-circuits); below the
threshold, or with either option absent, the message is returned
unchanged. -/
theorem claim_C3_offload_decision (m : BaseMessage) (cfg : PylonConfig) (σ : S3State) :
    (cfg.storeDestination = Option.none → _storeMessageBody m cfg σ = .ok (m, σ)) ∧
    (∀ dest, cfg.storeDestination = some dest →
      pyStartsWith (rstripSlashes dest) "s3://" = true →
      ((cfg.storeMinMessageBytes = Option.none → _storeMessageBody m cfg σ = .ok (m, σ)) ∧
       (∀ n, cfg.storeMinMessageBytes = some n →
         ((m.getApproxSize : Int) < n → _storeMessageBody m cfg σ = .ok (m, σ)) ∧
         (n ≤ (m.getApproxSize : Int) → (m.isCheckedIn = true ∨ storable m = true) →
           ∃ m' σ', _storeMessageBody m cfg σ = .ok (m', σ') ∧ m'.isCheckedIn = true)))) := by
  refine ⟨?_, ?_⟩
  · intro hd
    by_cases hchk : m.isCheckedIn = true
    · simp [_storeMessageBody, hchk]
    · have hchk' : m.isCheckedIn = false := by
        simpa using hchk
      simp [_storeMessageBody, hchk', _getStoreFromConfig, hd, Except.bind]
  · intro dest hd hscheme
    have hsd : pyStartsWith dest "s3://" = true := pyStartsWith_of_rstrip dest hscheme
    refine ⟨?_, ?_⟩
    · intro hmin
      by_cases hchk : m.isCheckedIn = true
      · simp [_storeMessageBody, hchk]
      · have hchk' : m.isCheckedIn = false := by
          simpa using hchk
        simp [_storeMessageBody, hchk', _getStoreFromConfig, hd, hsd, hmin, Except.bind]
    · intro n hmin
      refine ⟨?_, ?_⟩
      · intro hlt
        by_cases hchk : m.isCheckedIn = true
        · simp [_storeMessageBody, hchk]
        · have hchk' : m.isCheckedIn = false := by
            simpa using hchk
          simp [_storeMessageBody, hchk', _getStoreFromConfig, hd, hsd, hmin, Except.bind,
            not_le.mpr hlt]
      · intro hge hok
        rcases hok with hchk | hst
        · exact ⟨m, σ, by simp [_storeMessageBody, hchk], hchk⟩
        · by_cases hchk : m.isCheckedIn = true
          · exact ⟨m, σ, by simp [_storeMessageBody, hchk], hchk⟩
          · have hchk' : m.isCheckedIn = false := by
              simpa using hchk
            obtain ⟨m₁, σ₁, m₂, h1, h2, h3, _, _, _⟩ :=
              checkIn_checkOut_spec (mkMessageStore dest) m σ hscheme hst
            refine ⟨m₁, σ₁, ?_, ?_⟩
            · simp [_storeMessageBody, hchk', _getStoreFromConfig, hd, hsd, hmin, hge,
                Except.bind, h1]
            · simp [BaseMessage.isCheckedIn, h3]

/-- C3 witness: the offload decision at concrete messages and
configurations for each branch of the amended claim. -/
theorem claim_C3_witness :
    (_storeMessageBody msgHello { imageName := some "i" } {} = .ok (msgHello, {})) ∧
    (_storeMessageBody msgHello
        { storeDestination := some "s3://bucket/p" } {} = .ok (msgHello, {})) ∧
    (_storeMessageBody msgHello
        { storeDestination := some "s3://bucket/p", storeMinMessageBytes := some 1000000 } {} =
      .ok (msgHello, {})) ∧
    (∃ m' σ', _storeMessageBody msgHello
        { storeDestination := some "s3://bucket/p", storeMinMessageBytes := some 1 } {} =
        .ok (m', σ') ∧ m'.isCheckedIn = true) :=
  ⟨(claim_C3_offload_decision msgHello { imageName := some "i" } {}).1 rfl,
   (((claim_C3_offload_decision msgHello { storeDestination := some "s3://bucket/p" } {}).2
      "s3://bucket/p" rfl (by decide)).1) rfl,
   ((((claim_C3_offload_decision msgHello
        { storeDestination := some "s3://bucket/p", storeMinMessageBytes := some 1000000 } {}).2
      "s3://bucket/p" rfl (by decide)).2) 1000000 rfl).1 (by decide),
   ((((claim_C3_offload_decision msgHello
        { storeDestination := some "s3://bucket/p", storeMinMessageBytes := some 1 } {}).2
      "s3://bucket/p" rfl (by decide)).2) 1 rfl).2 (by decide) (Or.inr (by decide))⟩

/-- C4 counterexample: the cycle does not abort atomically with respect to
the sink.  The output generator is consumed lazily: the first (already
checked-in) message is written to the sink, then preparing the second
message raises (unsupported store scheme); the exception is caught and
logged, the input is not acknowledged, but one message HAS been sent. -/
theorem claim_C4_counterexample :
    ((c4Comp.runOnce c4Cfg false) c4World).1 = .ok () ∧
    ((c4Comp.runOnce c4Cfg false) c4World).2.sink.length = 1 ∧
    LogEntry.exception (.notImplementedError "Unsupported message store gs://bucket") ∈
      ((c4Comp.runOnce c4Cfg false) c4World).2.log ∧
    ((c4Comp.runOnce c4Cfg false) c4World).2.sourceFiles = c4World.sourceFiles := by
  refine ⟨rfl, rfl, ?_, rfl⟩
  decide

/-- C4 (amended): failure semantics of `runOnce`.  Any exception raised
inside the cycle is caught and logged (the call returns normally) unless
`PYLON_ALLOW_EXCEPTIONS` is set, in which case it propagates; the input
message is never acknowledged on failure.  An exception raised before
output dispatch begins — here, by the user function — additionally leaves
the sink and the store untouched; output dispatch itself is not atomic
(see the counterexample). -/
theorem claim_C4_failure_semantics (c : Component) (cfg : PylonConfig) (w : World) :
    (∀ e w', c.runOnceRaw cfg w = (.error e, w') →
      c.runOnce cfg false w = (.ok (), { w' with log := w'.log ++ [.exception e] }) ∧
      c.runOnce cfg true w = (.error e, w') ∧
      w'.sourceFiles = w.sourceFiles) ∧
    (∀ e msg rest, c.hasInput = true → w.sourceFiles = .ok msg :: rest →
      msg.isCheckedIn = false → (∀ mo c', c.coreFunction mo c' = .error e) →
      ∃ w', c.runOnceRaw cfg w = (.error e, w') ∧ w'.sink = w.sink ∧
        w'.store = w.store ∧ w'.sourceFiles = w.sourceFiles) := by
  constructor
  · intro e w' h
    refine ⟨?_, ?_, runOnceRaw_error_sourceFiles c cfg w e w' h⟩
    · simp [Component.runOnce, h]
    · simp [Component.runOnce, h]
  · intro e msg rest hin hsf hchk huser
    exact runOnceRaw_userError c cfg w msg rest e hin hsf hchk huser

/-- C4 witness: the failure semantics at the concrete failing cycle. -/
theorem claim_C4_witness :
    ∃ e w', c4Comp.runOnceRaw c4Cfg c4World = (.error e, w') ∧
      c4Comp.runOnce c4Cfg false c4World =
        (.ok (), { w' with log := w'.log ++ [.exception e] }) ∧
      c4Comp.runOnce c4Cfg true c4World = (.error e, w') ∧
      w'.sourceFiles = c4World.sourceFiles := by
  obtain ⟨e, w', h⟩ : ∃ e w', c4Comp.runOnceRaw c4Cfg c4World = (.error e, w') :=
    ⟨_, _, rfl⟩
  obtain ⟨h1, h2, h3⟩ := (claim_C4_failure_semantics c4Comp c4Cfg c4World).1 e w' h
  exact ⟨e, w', h, h1, h2, h3⟩

/-- C6 counterexample: the plain envelope codec does not coerce attribute
values: encoding a freshly constructed message yields `None`-valued fixed
attributes on the wire map. -/
theorem claim_C6_counterexample :
    ((encode_message bareMessage).attributes.all (fun kv => kv.2.isStr)) = false := by
  decide

/-- C6 (amended): the AWS wire encoder `encodeMessage` coerces every
attribute value (fixed and custom) to a string
(`'StringValue': str(v)`). -/
theorem claim_C6_wire_attributes_strings (m : BaseMessage) :
    ∀ kv ∈ (encodeMessage m).attributes, kv.2.stringValue.isStr = true := by
  intro kv hkv
  simp only [encodeMessage, List.mem_map] at hkv
  obtain ⟨x, hx, rfl⟩ := hkv
  rfl

/-- C6 witness: string coercion at a concrete message and attribute. -/
theorem claim_C6_witness :
    (MessageAttribute.PAYLOAD_MIME_TYPE,
      ({ stringValue := .str "text", dataType := "String" } : SqsAttrVal)) ∈
        (encodeMessage msgHello).attributes ∧
    ({ stringValue := PyVal.str "text", dataType := "String" } : SqsAttrVal).stringValue.isStr
      = true :=
  ⟨by decide, claim_C6_wire_attributes_strings msgHello
    (MessageAttribute.PAYLOAD_MIME_TYPE,
      ({ stringValue := .str "text", dataType := "String" } : SqsAttrVal)) (by decide)⟩

/-- C7 counterexample: a pipeline component whose user function returns an
iterable of `None` values sends nothing, but no warning is logged: the
warning is issued only when the result is `None` itself. -/
theorem claim_C7_counterexample :
    ((c7Comp.runOnce c7Cfg false) c7World).2.sink = [] ∧
    ((c7Comp.runOnce c7Cfg false) c7World).2.log.all
      (fun entry => match entry with | .warning _ => false | _ => true) = true := by
  decide

/-- C7 (amended): a pipeline component whose user function returns only
`None` values sends nothing to the sink; the no-output warning is logged
when the result is `None` itself, but not when it is an iterable of `None`
entries. -/
theorem claim_C7_none_output (c : Component) (cfg : PylonConfig) (w : World)
    (msg : BaseMessage) (rest : List SourceFile)
    (hin : c.hasInput = true) (hout : c.hasOutput = true)
    (hsf : w.sourceFiles = .ok msg :: rest) (hchk : msg.isCheckedIn = false) :
    ((∀ mo c', c.coreFunction mo c' = .ok .pyNone) →
      ∃ w', c.runOnceRaw cfg w = (.ok (), w') ∧ w'.sink = w.sink ∧
        LogEntry.warning "Component did not produce any output" ∈ w'.log) ∧
    (∀ ms, (∀ mo c', c.coreFunction mo c' = .ok (.many ms)) →
      (∀ x ∈ ms, x = Option.none) →
      ∃ w', c.runOnceRaw cfg w = (.ok (), w') ∧ w'.sink = w.sink) := by
  constructor
  · intro huser
    obtain ⟨w', h1, h2, _, h4⟩ := runOnceRaw_pyNone c cfg w msg rest hin hout hsf hchk huser
    exact ⟨w', h1, h2, h4⟩
  · intro ms huser hms
    obtain ⟨w', h1, h2, _⟩ :=
      runOnceRaw_manyNone c cfg w msg rest ms hin hout hsf hchk huser hms
    exact ⟨w', h1, h2⟩

/-- C7 witness: the `None`-returning pipeline component at a concrete
world: nothing sent, warning logged. -/
theorem claim_C7_witness :
    ∃ w', c7aComp.runOnceRaw c7Cfg c7World = (.ok (), w') ∧ w'.sink = c7World.sink ∧
      LogEntry.warning "Component did not produce any output" ∈ w'.log :=
  (claim_C7_none_output c7aComp c7Cfg c7World plainInputMessage [] rfl rfl rfl
    (by decide)).1 (fun _ _ => rfl)

/-- C8: the shutdown flag set by a signal is examined only at the top of
the loop: if a signal arrives during cycle `k` (and none arrived earlier),
cycle `k` still appears in the trace — it runs to completion — and no later
cycle ever starts. -/
theorem claim_C8_graceful_shutdown (sig : Nat → Bool) (fuel k : Nat)
    (hk : k < fuel) (hpre : ∀ j, j < k → sig j = false) (hsig : sig k = true) :
    k ∈ loopRun sig fuel false 0 ∧ ∀ j, k < j → j ∉ loopRun sig fuel false 0 := by
  constructor
  · exact loopRun_mem sig fuel 0 k (Nat.zero_le k) (by omega) (fun j _ hj => hpre j hj)
  · intro j hj
    exact loopRun_not_mem sig fuel 0 false j (Or.inr ⟨k, Nat.zero_le k, hj, hsig⟩)

/-- C8 witness: a signal during cycle 1 of a 5-cycle trace. -/
theorem claim_C8_witness :
    1 ∈ loopRun (fun n => n == 1) 5 false 0 ∧
      ∀ j, 1 < j → j ∉ loopRun (fun n => n == 1) 5 false 0 :=
  claim_C8_graceful_shutdown (fun n => n == 1) 5 1 (by decide)
    (fun j hj => by
      have hj0 : j = 0 := by omega
      subst hj0
      decide)
    (by decide)

/-- C9: rehydrating a message that is not checked in raises `ValueError`
immediately — uniformly in the store state, so before any store contact —
and `_processInput` passes a not-checked-in input straight to the user
function without invoking rehydration, so the error branch is unreachable
in a normal cycle. -/
theorem claim_C9_rehydrate_guard :
    (∀ (m : BaseMessage) (σ : S3State), m.isCheckedIn = false →
      _retrieveMessageBody m σ =
        .error (.valueError "message is not checked in anywhere???")) ∧
    (∀ (c : Component) (cfg : PylonConfig) (m : BaseMessage) (w : World),
      m.isCheckedIn = false →
      c._processInput cfg (some m) w = (c.coreFunction (some m) cfg, w)) := by
  constructor
  · intro m σ h
    simp [_retrieveMessageBody, h]
  · intro c cfg m w h
    simp [Component._processInput, h]

/-- C9 witness: the guard at a concrete not-checked-in message. -/
theorem claim_C9_witness :
    _retrieveMessageBody msgHello {} =
      .error (.valueError "message is not checked in anywhere???") ∧
    c7aComp._processInput c7Cfg (some msgHello) c7World =
      (c7aComp.coreFunction (some msgHello) c7Cfg, c7World) :=
  ⟨claim_C9_rehydrate_guard.1 msgHello {} (by decide),
   claim_C9_rehydrate_guard.2 c7aComp c7Cfg msgHello c7World (by decide)⟩

/-- C10: `decode_message` mutates the caller's attribute dict: the map it
leaves behind (returned alongside the message in this embedding) is the
input map with the five fixed attributes and the optional store key popped
out, it coincides with the decoded message's custom attributes, and (for a
genuine dict, whose keys are distinct) it no longer contains any of the
reserved keys. -/
theorem claim_C10_decode_mutates (body : String) (attrs : Dict PyVal)
    (m : BaseMessage) (rest : Dict PyVal)
    (h : decode_message body attrs = some (m, rest)) :
    rest = dictErase (dictErase (dictErase (dictErase (dictErase (dictErase attrs
        MessageAttribute.PAYLOAD_MIME_TYPE) MessageAttribute.OBJECT_TYPE)
        MessageAttribute.INGESTION_ID) MessageAttribute.ARTIFACT_NAME)
        MessageAttribute.ARTIFACT_VERSION) MessageAttribute.PAYLOAD_STORE_KEY ∧
    m.customAttributes = rest ∧
    ((dictKeys attrs).Nodup → ∀ nm ∈ fixedAttributeNames, dictHasKey rest nm = false) := by
  simp only [decode_message, Option.bind_eq_some, Option.map_eq_some'] at h
  obtain ⟨p1, h1, p2, h2, p3, h3, p4, h4, p5, h5, m0, hm0, hpair⟩ := h
  have e1 := dictPop?_snd attrs MessageAttribute.PAYLOAD_MIME_TYPE p1 h1
  have e2 := dictPop?_snd p1.2 MessageAttribute.OBJECT_TYPE p2 h2
  have e3 := dictPop?_snd p2.2 MessageAttribute.INGESTION_ID p3 h3
  have e4 := dictPop?_snd p3.2 MessageAttribute.ARTIFACT_NAME p4 h4
  have e5 := dictPop?_snd p4.2 MessageAttribute.ARTIFACT_VERSION p5 h5
  have e6 := dictPopD_snd p5.2 MessageAttribute.PAYLOAD_STORE_KEY (PyVal.none)
  injection hpair with hA hB
  have hrest : rest = dictErase p5.2 MessageAttribute.PAYLOAD_STORE_KEY := by
    rw [← hB, e6]
  have hchain : rest = dictErase (dictErase (dictErase (dictErase (dictErase (dictErase attrs
      MessageAttribute.PAYLOAD_MIME_TYPE) MessageAttribute.OBJECT_TYPE)
      MessageAttribute.INGESTION_ID) MessageAttribute.ARTIFACT_NAME)
      MessageAttribute.ARTIFACT_VERSION) MessageAttribute.PAYLOAD_STORE_KEY := by
    rw [hrest, e5, e4, e3, e2, e1]
  refine ⟨hchain, ?_, ?_⟩
  · rw [← hA, ← hB]
  · intro hnd nm hnm
    have nd1 := dictKeys_erase_nodup attrs MessageAttribute.PAYLOAD_MIME_TYPE hnd
    have nd2 := dictKeys_erase_nodup _ MessageAttribute.OBJECT_TYPE nd1
    have nd3 := dictKeys_erase_nodup _ MessageAttribute.INGESTION_ID nd2
    have nd4 := dictKeys_erase_nodup _ MessageAttribute.ARTIFACT_NAME nd3
    have nd5 := dictKeys_erase_nodup _ MessageAttribute.ARTIFACT_VERSION nd4
    have s2 := dictKeys_erase_sublist (dictErase attrs MessageAttribute.PAYLOAD_MIME_TYPE)
      MessageAttribute.OBJECT_TYPE
    have s3 := dictKeys_erase_sublist (dictErase (dictErase attrs
      MessageAttribute.PAYLOAD_MIME_TYPE) MessageAttribute.OBJECT_TYPE)
      MessageAttribute.INGESTION_ID
    have s4 := dictKeys_erase_sublist (dictErase (dictErase (dictErase attrs
      MessageAttribute.PAYLOAD_MIME_TYPE) MessageAttribute.OBJECT_TYPE)
      MessageAttribute.INGESTION_ID) MessageAttribute.ARTIFACT_NAME
    have s5 := dictKeys_erase_sublist (dictErase (dictErase (dictErase (dictErase attrs
      MessageAttribute.PAYLOAD_MIME_TYPE) MessageAttribute.OBJECT_TYPE)
      MessageAttribute.INGESTION_ID) MessageAttribute.ARTIFACT_NAME)
      MessageAttribute.ARTIFACT_VERSION
    have s6 := dictKeys_erase_sublist (dictErase (dictErase (dictErase (dictErase (dictErase attrs
      MessageAttribute.PAYLOAD_MIME_TYPE) MessageAttribute.OBJECT_TYPE)
      MessageAttribute.INGESTION_ID) MessageAttribute.ARTIFACT_NAME)
      MessageAttribute.ARTIFACT_VERSION) MessageAttribute.PAYLOAD_STORE_KEY
    rw [hchain]
    simp only [fixedAttributeNames, List.mem_cons, List.not_mem_nil, or_false] at hnm
    rcases hnm with rfl | rfl | rfl | rfl | rfl | rfl
    · exact dictHasKey_false_of_sublist _ _ _ (s6.trans (s5.trans (s4.trans (s3.trans s2))))
        (dictHasKey_erase_self attrs _ hnd)
    · exact dictHasKey_false_of_sublist _ _ _ (s6.trans (s5.trans (s4.trans s3)))
        (dictHasKey_erase_self _ _ nd1)
    · exact dictHasKey_false_of_sublist _ _ _ (s6.trans (s5.trans s4))
        (dictHasKey_erase_self _ _ nd2)
    · exact dictHasKey_false_of_sublist _ _ _ (s6.trans s5)
        (dictHasKey_erase_self _ _ nd3)
    · exact dictHasKey_false_of_sublist _ _ _ s6
        (dictHasKey_erase_self _ _ nd4)
    · exact dictHasKey_erase_self _ _ nd5

/-- C10 witness: decoding a concrete wire message pops the reserved keys
out of the caller's dict and leaves only the custom attribute. -/
theorem claim_C10_witness :
    ∃ m rest, decode_message "hello" c10attrs = some (m, rest) ∧
      (rest = dictErase (dictErase (dictErase (dictErase (dictErase (dictErase c10attrs
          MessageAttribute.PAYLOAD_MIME_TYPE) MessageAttribute.OBJECT_TYPE)
          MessageAttribute.INGESTION_ID) MessageAttribute.ARTIFACT_NAME)
          MessageAttribute.ARTIFACT_VERSION) MessageAttribute.PAYLOAD_STORE_KEY ∧
       m.customAttributes = rest ∧
       ((dictKeys c10attrs).Nodup →
         ∀ nm ∈ fixedAttributeNames, dictHasKey rest nm = false)) := by
  obtain ⟨m, rest, h⟩ : ∃ m rest, decode_message "hello" c10attrs = some (m, rest) :=
    ⟨_, _, rfl⟩
  exact ⟨m, rest, h, claim_C10_decode_mutates "hello" c10attrs m rest h⟩

end Pylon
